import Mathlib

/-!
Verification of the Learning Production Engine pipeline orchestration core.

The database is modelled as lists of rows per table; every Supabase call of
the orchestrators is translated to an explicit state transition.  External
adapter calls (Gemini/Claude/OpenRouter analysis, transcript fetching,
lesson generation, cross-source synthesis) are suspension points whose
outcomes are supplied by an environment record, and database write failures
are injected through boolean flags / a fail-set indexing the insert
operations in program order.  PostgREST semantics are modelled faithfully:
`.single()` yields a row only when exactly one row matches (`data` is `null`
otherwise, the error object being discarded by destructuring), `.limit(1)
.single()` after an ordered select yields the top row when at least one
exists, inserts whose `error` field the code checks throw on failure, and
inserts/updates whose result is discarded never throw.
-/

namespace LPE

inductive SourceType
  | youtube
  | pdf
  | pptx
deriving Repr, DecidableEq

structure TranscriptSeg where
  text : String
  start : Nat
  duration : Nat
deriving Repr, DecidableEq

/-- A row of the `sources` table. -/
structure SourceRow where
  id : Nat
  organizationId : Option String
  sourceType : SourceType
  sourceUrl : String
  title : String
  status : String
  transcript : Option (List TranscriptSeg)
  durationSeconds : Option Nat
deriving Repr, DecidableEq

/-- A row of the `source_analyses` table (one content analysis per insert). -/
structure SourceAnalysisRow where
  sourceId : Nat
  analysisType : String
  analysisData : String
  createdAt : Nat
deriving Repr, DecidableEq

/-- A row of the `courses` table. -/
structure CourseRow where
  id : Nat
  organizationId : String
  collectionId : Option Nat
  title : String
  description : String
  courseCode : Option String
  iataCategory : Option String
  totalDurationMinutes : Option Nat
  status : String
  notebookId : Option String
deriving Repr, DecidableEq

/-- A row of the `modules` table. -/
structure ModuleRow where
  id : Nat
  courseId : Nat
  moduleNumber : Nat
  title : String
  description : String
  duration : String
deriving Repr, DecidableEq

/-- A row of the `learning_objectives` table. -/
structure ObjectiveRow where
  id : Nat
  moduleId : Nat
  objectiveType : String
  content : String
  bloomsLevel : String
  orderIndex : Nat
deriving Repr, DecidableEq

/-- A row of the `learning_activities` table. -/
structure ActivityRow where
  learningObjectiveId : Nat
  instructionMethod : String
  description : String
  duration : String
  resources : String
  orderIndex : Nat
deriving Repr, DecidableEq

/-- A row of the `lesson_source_mappings` table. -/
structure MappingRow where
  sourceId : Nat
  moduleId : Nat
deriving Repr, DecidableEq

/-- A row of the `source_collections` table. -/
structure CollectionRow where
  id : Nat
  organizationId : String
  title : String
  description : String
  status : String
  analysisCompletedAt : Option Nat
deriving Repr, DecidableEq

/-- A row of the `collection_sources` join table. -/
structure CollectionSourceRow where
  collectionId : Nat
  sourceId : Nat
  orderIndex : Int
deriving Repr, DecidableEq

/-- The cross-source synthesis payload returned by the synthesis adapter;
its content is opaque to the orchestration core apart from the
`synthesisStrategy` field copied into lesson metadata. -/
structure CrossSourceSynthesis where
  payload : String
  synthesisStrategy : String
deriving Repr, DecidableEq

/-- A row of the `collection_analyses` table. -/
structure CollectionAnalysisRow where
  collectionId : Nat
  analysisType : String
  analysisData : CrossSourceSynthesis
  sourcesAnalyzed : Nat
  createdAt : Nat
deriving Repr, DecidableEq

/-- The relational store.  `nextId` generates fresh row ids, `clock` stamps
`created_at` timestamps. -/
structure DB where
  sources : List SourceRow
  sourceAnalyses : List SourceAnalysisRow
  courses : List CourseRow
  modules : List ModuleRow
  objectives : List ObjectiveRow
  activities : List ActivityRow
  mappings : List MappingRow
  collections : List CollectionRow
  collectionSources : List CollectionSourceRow
  collectionAnalyses : List CollectionAnalysisRow
  nextId : Nat
  clock : Nat
deriving Repr, DecidableEq

def emptyDB : DB := ⟨[], [], [], [], [], [], [], [], [], [], 0, 0⟩

/-! ## The generated lesson tree (`GeneratedLesson` of `src/types/lessons`) -/

structure GenActivity where
  instructionMethod : String
  description : String
  duration : String
  resources : String
deriving Repr, DecidableEq

structure GenObjective where
  type : String
  content : String
  bloomsLevel : String
  sourceIds : List Nat
  activities : List GenActivity
deriving Repr, DecidableEq

structure GenModule where
  moduleNumber : Nat
  title : String
  description : String
  duration : String
  objectives : List GenObjective
deriving Repr, DecidableEq

structure GenCourse where
  title : String
  description : String
  course_code : String
  iata_category : String
  total_duration_minutes : Nat
deriving Repr, DecidableEq

structure LessonMetadata where
  collectionId : Nat
  sourcesUsed : List Nat
  synthesisStrategy : String
deriving Repr, DecidableEq

structure GeneratedLesson where
  course : GenCourse
  modules : List GenModule
  metadata : Option LessonMetadata := none
deriving Repr, DecidableEq

/-! ## Materialization (`PipelineOrchestrator.saveLesson` and
`CollectionOrchestrator.saveLesson`)

Insert operations are numbered in program order; `failSet` holds the
indices whose insert returns a database error.  An insert whose error the
code checks throws there; an insert whose result the code discards (the
`lesson_source_mappings` insert in the single-source variant, the
`learning_activities` insert in the collection variant) writes nothing on
failure but does not throw.  The store reached at the moment of a throw is
returned alongside the error, because the code performs no compensating
cleanup. -/

structure SaveState where
  db : DB
  k : Nat
deriving Repr

def insertFailsAt (failSet : List Nat) (k : Nat) : Bool := failSet.contains k

/-- The inner activity loop of `PipelineOrchestrator.saveLesson`
(error-checked inserts). -/
def saveActivities (failSet : List Nat) (objectiveId : Nat) :
    List GenActivity → Nat → SaveState → SaveState × Option String
  | [], _, st => (st, none)
  | act :: rest, j, st =>
    if insertFailsAt failSet st.k then
      ({ st with k := st.k + 1 }, some "Failed to create activity")
    else
      saveActivities failSet objectiveId rest (j + 1)
        ⟨{ st.db with activities := st.db.activities ++
            [⟨objectiveId, act.instructionMethod, act.description, act.duration,
              act.resources, j⟩] }, st.k + 1⟩

/-- The objective loop of `PipelineOrchestrator.saveLesson`. -/
def saveObjectives (failSet : List Nat) (moduleId : Nat) :
    List GenObjective → Nat → SaveState → SaveState × Option String
  | [], _, st => (st, none)
  | obj :: rest, i, st =>
    if insertFailsAt failSet st.k then
      ({ st with k := st.k + 1 }, some "Failed to create objective")
    else
      let objectiveId := st.db.nextId
      let st1 : SaveState :=
        ⟨{ st.db with
            objectives := st.db.objectives ++
              [⟨objectiveId, moduleId, obj.type, obj.content, obj.bloomsLevel, i⟩],
            nextId := st.db.nextId + 1 }, st.k + 1⟩
      match saveActivities failSet objectiveId obj.activities 0 st1 with
      | (st2, some e) => (st2, some e)
      | (st2, none) => saveObjectives failSet moduleId rest (i + 1) st2

/-- The module loop of `PipelineOrchestrator.saveLesson`; the
`lesson_source_mappings` insert result is discarded by the code, so its
failure writes nothing and does not throw. -/
def saveModules (failSet : List Nat) (courseId sourceId : Nat) :
    List GenModule → SaveState → SaveState × Option String
  | [], st => (st, none)
  | m :: rest, st =>
    if insertFailsAt failSet st.k then
      ({ st with k := st.k + 1 }, some "Failed to create module")
    else
      let moduleId := st.db.nextId
      let st1 : SaveState :=
        ⟨{ st.db with
            modules := st.db.modules ++
              [⟨moduleId, courseId, m.moduleNumber, m.title, m.description, m.duration⟩],
            nextId := st.db.nextId + 1 }, st.k + 1⟩
      let st2 : SaveState :=
        if insertFailsAt failSet st1.k then { st1 with k := st1.k + 1 }
        else ⟨{ st1.db with mappings := st1.db.mappings ++ [⟨sourceId, moduleId⟩] },
              st1.k + 1⟩
      match saveObjectives failSet moduleId m.objectives 0 st2 with
      | (st3, some e) => (st3, some e)
      | (st3, none) => saveModules failSet courseId sourceId rest st3

/-- `PipelineOrchestrator.saveLesson`: Course → Modules (+ mapping) →
Objectives → Activities, with no rollback on failure. -/
def saveLesson (db : DB) (failSet : List Nat) (lesson : GeneratedLesson)
    (sourceId : Nat) (organizationId : String) : DB × Except String Nat :=
  if insertFailsAt failSet 0 then (db, .error "Failed to create course")
  else
    let courseId := db.nextId
    let crow : CourseRow :=
      ⟨courseId, organizationId, none, lesson.course.title, lesson.course.description,
        none, none, none, "draft", none⟩
    let st0 : SaveState :=
      ⟨{ db with
          courses := db.courses ++ [crow],
          nextId := db.nextId + 1 }, 1⟩
    match saveModules failSet courseId sourceId lesson.modules st0 with
    | (st, some e) => (st.db, .error e)
    | (st, none) => (st.db, .ok courseId)

/-- The activity loop of `CollectionOrchestrator.saveLesson`: the insert's
result is discarded there, so a failure writes nothing and does not throw. -/
def saveActivitiesColl (failSet : List Nat) (objectiveId : Nat) :
    List GenActivity → Nat → SaveState → SaveState
  | [], _, st => st
  | act :: rest, j, st =>
    let st1 : SaveState :=
      if insertFailsAt failSet st.k then { st with k := st.k + 1 }
      else ⟨{ st.db with activities := st.db.activities ++
              [⟨objectiveId, act.instructionMethod, act.description, act.duration,
                act.resources, j⟩] }, st.k + 1⟩
    saveActivitiesColl failSet objectiveId rest (j + 1) st1

/-- The objective loop of `CollectionOrchestrator.saveLesson`. -/
def saveObjectivesColl (failSet : List Nat) (moduleId : Nat) :
    List GenObjective → Nat → SaveState → SaveState × Option String
  | [], _, st => (st, none)
  | obj :: rest, i, st =>
    if insertFailsAt failSet st.k then
      ({ st with k := st.k + 1 }, some "objective insert failed")
    else
      let objectiveId := st.db.nextId
      let st1 : SaveState :=
        ⟨{ st.db with
            objectives := st.db.objectives ++
              [⟨objectiveId, moduleId, obj.type, obj.content, obj.bloomsLevel, i⟩],
            nextId := st.db.nextId + 1 }, st.k + 1⟩
      let st2 := saveActivitiesColl failSet objectiveId obj.activities 0 st1
      saveObjectivesColl failSet moduleId rest (i + 1) st2

/-- The module loop of `CollectionOrchestrator.saveLesson` (no
`lesson_source_mappings` inserts in the collection variant). -/
def saveModulesColl (failSet : List Nat) (courseId : Nat) :
    List GenModule → SaveState → SaveState × Option String
  | [], st => (st, none)
  | m :: rest, st =>
    if insertFailsAt failSet st.k then
      ({ st with k := st.k + 1 }, some "module insert failed")
    else
      let moduleId := st.db.nextId
      let st1 : SaveState :=
        ⟨{ st.db with
            modules := st.db.modules ++
              [⟨moduleId, courseId, m.moduleNumber, m.title, m.description, m.duration⟩],
            nextId := st.db.nextId + 1 }, st.k + 1⟩
      match saveObjectivesColl failSet moduleId m.objectives 0 st1 with
      | (st2, some e) => (st2, some e)
      | (st2, none) => saveModulesColl failSet courseId rest st2

/-- `CollectionOrchestrator.saveLesson`: like the single-source variant but
the course row carries the collection id and the extra course fields, and
no source↔module mapping is written. -/
def saveLessonColl (db : DB) (failSet : List Nat) (lesson : GeneratedLesson)
    (collectionId : Nat) (organizationId : String) : DB × Except String Nat :=
  if insertFailsAt failSet 0 then (db, .error "course insert failed")
  else
    let courseId := db.nextId
    let crow : CourseRow :=
      ⟨courseId, organizationId, some collectionId, lesson.course.title,
        lesson.course.description, some lesson.course.course_code,
        some lesson.course.iata_category, some lesson.course.total_duration_minutes,
        "draft", none⟩
    let st0 : SaveState :=
      ⟨{ db with
          courses := db.courses ++ [crow],
          nextId := db.nextId + 1 }, 1⟩
    match saveModulesColl failSet courseId lesson.modules st0 with
    | (st, some e) => (st.db, .error e)
    | (st, none) => (st.db, .ok courseId)

/-! ## Shared status helpers -/

/-- `PipelineOrchestrator.updateSourceStatus`: the update's result is
discarded by the code, so a failed write leaves the store unchanged and
raises nothing. -/
def updateSourceStatus (db : DB) (writeFails : Bool) (sourceId : Nat)
    (status : String) : DB :=
  if writeFails then db
  else { db with sources := db.sources.map fun s =>
          if s.id = sourceId then { s with status := status } else s }

/-- A `source_collections` status update; the result is discarded at every
call site, so a failed write leaves the store unchanged and raises nothing.
`stamp = some t` additionally sets `analysis_completed_at`. -/
def updateCollectionStatus (db : DB) (writeFails : Bool) (collectionId : Nat)
    (status : String) (stamp : Option Nat) : DB :=
  if writeFails then db
  else { db with collections := db.collections.map fun c =>
          if c.id = collectionId then
            { c with status := status,
                     analysisCompletedAt :=
                       match stamp with
                       | some t => some t
                       | none => c.analysisCompletedAt }
          else c }

/-- `PipelineOrchestrator.getSourceTitle`: a `.single()` read; `data?.title
|| 'Untitled Source'` falls back on a missing row or an empty title. -/
def getSourceTitle (db : DB) (sourceId : Nat) : String :=
  match db.sources.filter (fun s => s.id = sourceId) with
  | [s] => if s.title = "" then "Untitled Source" else s.title
  | _ => "Untitled Source"

/-! ## Single-source pipeline (`PipelineOrchestrator.processSourceToLesson`) -/

/-- Outcomes of the external calls and injected database-write failures for
one invocation of the single-source pipeline, in program order. -/
structure PipeEnv where
  ytTitle : Option String
  createFails : Bool
  procWriteFails : Bool
  analysisResult : Except String String
  saveAnalysisFails : Bool
  genResult : Except String GeneratedLesson
  saveFailSet : List Nat
  nbUpdateFails : Bool
  completedWriteFails : Bool
  failedWriteFails : Bool

/-- `PipelineOrchestrator.analyzeSource`: youtube goes straight to the video
adapter; documents require file data before the document adapter runs. -/
def analyzeSource (env : PipeEnv) (sourceType : SourceType)
    (file? : Option String) : Except String String :=
  match sourceType with
  | .youtube => env.analysisResult
  | _ =>
    if file?.isNone then
      .error "File buffer and name are required for document analysis"
    else env.analysisResult

/-- `NotebookLMService.createNotebookForCourse`: records a notebook id on
the course row; every internal failure is swallowed (it returns null), so
it never throws into the pipeline. -/
def createNotebookForCourse (db : DB) (updateFails : Bool) (courseId : Nat) : DB :=
  if updateFails then db
  else { db with courses := db.courses.map fun c =>
          if c.id = courseId then { c with notebookId := some "pending" } else c }

/-- `PipelineOrchestrator.processSourceToLesson`: create source → status
`processing` → analyze → save analysis → generate lesson → save lesson →
notebook (non-fatal) → status `completed`; the catch block writes status
`failed` and re-throws.  A failure of `createSource` itself propagates with
no status write (no source row exists yet). -/
def processSourceToLesson (db : DB) (env : PipeEnv) (sourceUrl : String)
    (sourceType : SourceType) (file? : Option String) (organizationId : String) :
    DB × Except String Nat :=
  if env.createFails then (db, .error "Failed to create source")
  else
    let sourceId := db.nextId
    let title :=
      match sourceType, env.ytTitle with
      | .youtube, some t => t
      | _, _ => sourceUrl
    let srow : SourceRow :=
      ⟨sourceId, some organizationId, sourceType, sourceUrl, title, "pending",
        none, none⟩
    let db1 : DB :=
      { db with
          sources := db.sources ++ [srow],
          nextId := db.nextId + 1 }
    let db2 := updateSourceStatus db1 env.procWriteFails sourceId "processing"
    match analyzeSource env sourceType file? with
    | .error e => (updateSourceStatus db2 env.failedWriteFails sourceId "failed", .error e)
    | .ok analysisData =>
      if env.saveAnalysisFails then
        (updateSourceStatus db2 env.failedWriteFails sourceId "failed",
          .error "Failed to save analysis")
      else
        let db3 : DB :=
          { db2 with
              sourceAnalyses := db2.sourceAnalyses ++
                [⟨sourceId, "gemini_analysis", analysisData, db2.clock⟩],
              clock := db2.clock + 1 }
        let _title := getSourceTitle db3 sourceId
        match env.genResult with
        | .error e =>
          (updateSourceStatus db3 env.failedWriteFails sourceId "failed", .error e)
        | .ok lesson =>
          match saveLesson db3 env.saveFailSet lesson sourceId organizationId with
          | (db4, .error e) =>
            (updateSourceStatus db4 env.failedWriteFails sourceId "failed", .error e)
          | (db4, .ok courseId) =>
            let db5 := createNotebookForCourse db4 env.nbUpdateFails courseId
            (updateSourceStatus db5 env.completedWriteFails sourceId "completed",
              .ok courseId)

/-! ## Collection pipeline (`CollectionOrchestrator`, `CollectionAnalyzer`,
`CollectionLessonService`) -/

/-- `CollectionOrchestrator.getMaxOrderIndex`: order by `order_index`
descending, `limit(1).single()`, then `data?.order_index ?? -1`. -/
def getMaxOrderIndex (db : DB) (collectionId : Nat) : Int :=
  (((db.collectionSources.filter (fun cs => cs.collectionId = collectionId)).map
      (fun cs => cs.orderIndex)).max?).getD (-1)

/-- Outcomes of the external calls and injected database-write failures for
one invocation of `addSourceToCollection`, in program order. -/
structure AddEnv where
  ytTitle : Option String
  createFails : Bool
  transcriptResult : Except String (List TranscriptSeg)
  videoAnalysisResult : Except String String
  transcriptUpdateFails : Bool
  analysisInsertFails : Bool
  docAnalysisResult : Except String String
  linkInsertFails : Bool
  completedWriteFails : Bool
  buildingWriteFails : Bool

/-- Steps 2–3 of `CollectionOrchestrator.addSourceToCollection`: youtube
sources get a transcript fetch, a Gemini video analysis, an unchecked
transcript update and a checked analysis insert; documents with file data
get a Gemini document analysis and a checked insert; anything else skips
analysis with a warning. -/
def addSourceAnalysisPhase (db : DB) (env : AddEnv) (sourceId : Nat)
    (sourceType : SourceType) (file? : Option String) : DB × Option String :=
  match sourceType with
  | .youtube =>
    match env.transcriptResult with
    | .error e => (db, some e)
    | .ok transcript =>
      match env.videoAnalysisResult with
      | .error e => (db, some e)
      | .ok analysisData =>
        let db1 :=
          if env.transcriptUpdateFails then db
          else { db with sources := db.sources.map fun s =>
                  if s.id = sourceId then
                    { s with
                        transcript := some transcript,
                        durationSeconds :=
                          some ((transcript.map fun t => t.start + t.duration).foldl
                            max 0) }
                  else s }
        if env.analysisInsertFails then (db1, some "analysis insert failed")
        else
          ({ db1 with
              sourceAnalyses := db1.sourceAnalyses ++
                [⟨sourceId, "gemini_video", analysisData, db1.clock⟩],
              clock := db1.clock + 1 }, none)
  | _ =>
    match file? with
    | some _fileName =>
      match env.docAnalysisResult with
      | .error e => (db, some e)
      | .ok analysisData =>
        if env.analysisInsertFails then (db, some "analysis insert failed")
        else
          ({ db with
              sourceAnalyses := db.sourceAnalyses ++
                [⟨sourceId, "gemini_document", analysisData, db.clock⟩],
              clock := db.clock + 1 }, none)
    | none => (db, none)

/-- `CollectionOrchestrator.addSourceToCollection`: create the source
directly in status `processing`, analyze it, link it at order index
`getMaxOrderIndex + 1`, mark the source `completed` and the collection
`building`.  The catch block only wraps the error message — it performs no
status write on the way out. -/
def addSourceToCollection (db : DB) (env : AddEnv) (collectionId : Nat)
    (sourceUrl : String) (sourceType : SourceType) (file? : Option String) :
    DB × Except String Nat :=
  let orgId := (db.collections.find? (fun c => c.id = collectionId)).map
    (fun c => c.organizationId)
  let title :=
    match sourceType, env.ytTitle with
    | .youtube, some t => t
    | _, _ => file?.getD sourceUrl
  if env.createFails then
    (db, .error "Failed to add source to collection: source insert failed")
  else
    let sourceId := db.nextId
    let srow : SourceRow :=
      ⟨sourceId, orgId, sourceType, sourceUrl, title, "processing", none, none⟩
    let db1 : DB :=
      { db with
          sources := db.sources ++ [srow],
          nextId := db.nextId + 1 }
    match addSourceAnalysisPhase db1 env sourceId sourceType file? with
    | (db2, some e) => (db2, .error ("Failed to add source to collection: " ++ e))
    | (db2, none) =>
      let maxOrder := getMaxOrderIndex db2 collectionId
      if env.linkInsertFails then
        (db2, .error "Failed to add source to collection: link insert failed")
      else
        let db3 : DB :=
          { db2 with collectionSources := db2.collectionSources ++
              [⟨collectionId, sourceId, maxOrder + 1⟩] }
        let db4 := updateSourceStatus db3 env.completedWriteFails sourceId "completed"
        let db5 := updateCollectionStatus db4 env.buildingWriteFails collectionId
          "building" none
        (db5, .ok sourceId)

/-- The `.single()` lookup of `CollectionAnalyzer.ensureSourceAnalyses`: no
ordering and no limit, so `data` is a row only when exactly one analysis
row exists for the source. -/
def singleSourceAnalysis (db : DB) (sourceId : Nat) : Option SourceAnalysisRow :=
  match db.sourceAnalyses.filter (fun a => a.sourceId = sourceId) with
  | [a] => some a
  | _ => none

/-- The in-memory `SourceAnalysis` objects fed to the synthesis adapter. -/
structure SourceAnalysisResult where
  sourceId : Nat
  analysisData : String
deriving Repr, DecidableEq

/-- `CollectionAnalyzer.ensureSourceAnalyses`: for each member source, push
its analysis when the single-row lookup yields one, otherwise skip the
source with a warning. -/
def ensureSourceAnalyses (db : DB) : List SourceRow → List SourceAnalysisResult
  | [] => []
  | s :: rest =>
    match singleSourceAnalysis db s.id with
    | some a => ⟨s.id, a.analysisData⟩ :: ensureSourceAnalyses db rest
    | none => ensureSourceAnalyses db rest

def collectionMemberRows (db : DB) (collectionId : Nat) : List CollectionSourceRow :=
  db.collectionSources.filter (fun cs => cs.collectionId = collectionId)

/-- The member sources joined through `collection_sources`. -/
def collectionMemberSources (db : DB) (collectionId : Nat) : List SourceRow :=
  (collectionMemberRows db collectionId).filterMap
    (fun cs => db.sources.find? (fun s => s.id = cs.sourceId))

/-- Outcomes of the external synthesis call and injected write failures for
one invocation of `CollectionAnalyzer.analyzeCollection`. -/
structure AnalyzeEnv where
  synthesisResult : Except String CrossSourceSynthesis
  insertFails : Bool
  readyWriteFails : Bool
  failedWriteFails : Bool

/-- `CollectionAnalyzer.analyzeCollection`: fetch the collection, gather the
member analyses, synthesize, append one `collection_analyses` row, set the
collection `ready` with the completion timestamp; the catch block sets the
collection `failed` and re-throws. -/
def analyzeCollection (db : DB) (env : AnalyzeEnv) (collectionId : Nat) :
    DB × Except String CollectionAnalysisRow :=
  match db.collections.find? (fun c => c.id = collectionId) with
  | none =>
    (updateCollectionStatus db env.failedWriteFails collectionId "failed" none,
      .error "Collection not found")
  | some _ =>
    let sources := collectionMemberSources db collectionId
    let analyses := ensureSourceAnalyses db sources
    match env.synthesisResult with
    | .error e =>
      (updateCollectionStatus db env.failedWriteFails collectionId "failed" none,
        .error e)
    | .ok synthesis =>
      let row : CollectionAnalysisRow :=
        ⟨collectionId, "cross_source_synthesis", synthesis, analyses.length, db.clock⟩
      if env.insertFails then
        (updateCollectionStatus db env.failedWriteFails collectionId "failed" none,
          .error "collection analysis insert failed")
      else
        let db1 : DB := { db with
          collectionAnalyses := db.collectionAnalyses ++ [row],
          clock := db.clock + 1 }
        let db2 := updateCollectionStatus db1 env.readyWriteFails collectionId
          "ready" (some db1.clock)
        (db2, .ok row)

/-- The read of `CollectionOrchestrator.ensureCollectionAnalysis`: order by
`created_at` descending, `limit(1).single()` — the most recent row, or none
when the collection has no analysis. -/
def latestCollectionAnalysis (db : DB) (collectionId : Nat) :
    Option CollectionAnalysisRow :=
  (db.collectionAnalyses.filter (fun a => a.collectionId = collectionId)).foldl
    (fun acc a =>
      match acc with
      | none => some a
      | some b => if a.createdAt > b.createdAt then some a else some b) none

/-- `CollectionOrchestrator.ensureCollectionAnalysis`: return the most
recent existing analysis when one exists; only when none exists run
`analyzeCollection`. -/
def ensureCollectionAnalysis (db : DB) (env : AnalyzeEnv) (collectionId : Nat) :
    DB × Except String CollectionAnalysisRow :=
  match latestCollectionAnalysis db collectionId with
  | some existing => (db, .ok existing)
  | none => analyzeCollection db env collectionId

/-- `CollectionLessonService.generateFromCollection`: fetch the collection,
call the lesson adapter, parse its JSON and attach source metadata.  The
parsed tree is returned as-is: no invariant validation and no check that
objective source ids are collection members. -/
def generateFromCollection (db : DB) (genResult : Except String GeneratedLesson)
    (collectionId : Nat) (synthesis : CrossSourceSynthesis) :
    Except String GeneratedLesson :=
  match db.collections.find? (fun c => c.id = collectionId) with
  | none => .error "Collection not found"
  | some _ =>
    match genResult with
    | .error e => .error e
    | .ok lesson =>
      .ok { lesson with
              metadata := some ⟨collectionId,
                (collectionMemberSources db collectionId).map (fun s => s.id),
                synthesis.synthesisStrategy⟩ }

/-- Environment for one invocation of `processCollectionToLesson`. -/
structure CollEnv where
  analyzeEnv : AnalyzeEnv
  genResult : Except String GeneratedLesson
  saveFailSet : List Nat

/-- `CollectionOrchestrator.processCollectionToLesson`: ensure an analysis
exists, generate the lesson from its synthesis, save it; the catch block
logs and re-throws. -/
def processCollectionToLesson (db : DB) (env : CollEnv) (collectionId : Nat)
    (organizationId : String) : DB × Except String Nat :=
  match ensureCollectionAnalysis db env.analyzeEnv collectionId with
  | (db1, .error e) => (db1, .error e)
  | (db1, .ok analysis) =>
    match generateFromCollection db1 env.genResult collectionId
        analysis.analysisData with
    | .error e => (db1, .error e)
    | .ok lesson => saveLessonColl db1 env.saveFailSet lesson collectionId
        organizationId

/-! ## Spec-side predicates used to state the claims -/

/-- The most recent `created_at` among a source's content analyses. -/
def latestSourceAnalysisTime (db : DB) (sourceId : Nat) : Option Nat :=
  ((db.sourceAnalyses.filter (fun a => a.sourceId = sourceId)).map
    (fun a => a.createdAt)).max?

/-- Spec invariant 6, used to state claim C5: a collection analysis is
stale when some member source has a content analysis newer than it. -/
def collectionAnalysisStale (db : DB) (collectionId : Nat)
    (a : CollectionAnalysisRow) : Bool :=
  (collectionMemberRows db collectionId).any fun cs =>
    match latestSourceAnalysisTime db cs.sourceId with
    | some t => a.createdAt < t
    | none => false

/-- The course row inserted by `PipelineOrchestrator.saveLesson`. -/
def courseRowOf (db : DB) (lesson : GeneratedLesson) (organizationId : String) :
    CourseRow :=
  ⟨db.nextId, organizationId, none, lesson.course.title, lesson.course.description,
    none, none, none, "draft", none⟩

/-- The course row inserted by `CollectionOrchestrator.saveLesson`. -/
def collCourseRowOf (db : DB) (lesson : GeneratedLesson) (collectionId : Nat)
    (organizationId : String) : CourseRow :=
  ⟨db.nextId, organizationId, some collectionId, lesson.course.title,
    lesson.course.description, some lesson.course.course_code,
    some lesson.course.iata_category, some lesson.course.total_duration_minutes,
    "draft", none⟩

/-! ## Basic lemmas about the materialization helpers -/

/-- `new` is `old` with rows appended at the end — nothing deleted. -/
def RowsKept {α : Type} (old new : List α) : Prop := ∃ t, new = old ++ t

/-- Effect of one pass of the inner materialization loops: the course row
and all tables outside the lesson fan-out are untouched, while the fan-out
tables only grow. -/
def InnerStep (d d' : DB) : Prop :=
  d'.courses = d.courses ∧ d'.sources = d.sources ∧
  d'.sourceAnalyses = d.sourceAnalyses ∧ d'.collections = d.collections ∧
  d'.collectionSources = d.collectionSources ∧
  d'.collectionAnalyses = d.collectionAnalyses ∧ d'.clock = d.clock ∧
  RowsKept d.modules d'.modules ∧ RowsKept d.objectives d'.objectives ∧
  RowsKept d.activities d'.activities ∧ RowsKept d.mappings d'.mappings

/-- Overall effect of a `saveLesson` run on the store: rows are only ever
appended, never removed — there is no compensating cleanup. -/
def NoRowsDeleted (d d' : DB) : Prop :=
  d'.sources = d.sources ∧ d'.sourceAnalyses = d.sourceAnalyses ∧
  d'.collections = d.collections ∧ d'.collectionSources = d.collectionSources ∧
  d'.collectionAnalyses = d.collectionAnalyses ∧ d'.clock = d.clock ∧
  RowsKept d.courses d'.courses ∧ RowsKept d.modules d'.modules ∧
  RowsKept d.objectives d'.objectives ∧ RowsKept d.activities d'.activities ∧
  RowsKept d.mappings d'.mappings

theorem rowsKept_refl {α : Type} (l : List α) : RowsKept l l := ⟨[], by simp⟩

theorem rowsKept_trans {α : Type} {a b c : List α} (h1 : RowsKept a b)
    (h2 : RowsKept b c) : RowsKept a c := by
  obtain ⟨t1, h1⟩ := h1
  obtain ⟨t2, h2⟩ := h2
  exact ⟨t1 ++ t2, by simp [h2, h1]⟩

theorem rowsKept_append {α : Type} (l t : List α) : RowsKept l (l ++ t) := ⟨t, rfl⟩

theorem rowsKept_mem {α : Type} {a : α} {l l' : List α} (ha : a ∈ l)
    (h : RowsKept l l') : a ∈ l' := by
  obtain ⟨t, rfl⟩ := h
  exact List.mem_append_left _ ha

theorem innerStep_refl (d : DB) : InnerStep d d :=
  ⟨rfl, rfl, rfl, rfl, rfl, rfl, rfl, rowsKept_refl _, rowsKept_refl _,
    rowsKept_refl _, rowsKept_refl _⟩

theorem innerStep_trans {a b c : DB} (h1 : InnerStep a b) (h2 : InnerStep b c) :
    InnerStep a c := by
  obtain ⟨e1, e2, e3, e4, e5, e6, e7, k1, k2, k3, k4⟩ := h1
  obtain ⟨f1, f2, f3, f4, f5, f6, f7, l1, l2, l3, l4⟩ := h2
  refine ⟨by rw [f1, e1], by rw [f2, e2], by rw [f3, e3], by rw [f4, e4],
    by rw [f5, e5], by rw [f6, e6], by rw [f7, e7], rowsKept_trans k1 l1,
    rowsKept_trans k2 l2, rowsKept_trans k3 l3, rowsKept_trans k4 l4⟩

theorem saveActivities_inner (fs : List Nat) (oid : Nat) :
    ∀ (acts : List GenActivity) (j : Nat) (st : SaveState),
      InnerStep st.db (saveActivities fs oid acts j st).1.db := by
  intro acts
  induction acts with
  | nil => intro j st; exact innerStep_refl _
  | cons a rest ih =>
    intro j st
    rw [saveActivities]
    split
    · exact innerStep_refl _
    · have hact : InnerStep st.db
          (⟨{ st.db with
              activities := st.db.activities ++
                [⟨oid, a.instructionMethod, a.description, a.duration,
                  a.resources, j⟩] }, st.k + 1⟩ : SaveState).db :=
        ⟨rfl, rfl, rfl, rfl, rfl, rfl, rfl, rowsKept_refl _, rowsKept_refl _,
          rowsKept_append _ _, rowsKept_refl _⟩
      exact innerStep_trans hact (ih (j + 1) _)

theorem saveObjectives_inner (fs : List Nat) (mid : Nat) :
    ∀ (objs : List GenObjective) (i : Nat) (st : SaveState),
      InnerStep st.db (saveObjectives fs mid objs i st).1.db := by
  intro objs
  induction objs with
  | nil => intro i st; exact innerStep_refl _
  | cons obj rest ih =>
    intro i st
    rw [saveObjectives]
    split
    · exact innerStep_refl _
    · have hobj : InnerStep st.db
          (⟨{ st.db with
              objectives := st.db.objectives ++
                [⟨st.db.nextId, mid, obj.type, obj.content, obj.bloomsLevel, i⟩],
              nextId := st.db.nextId + 1 }, st.k + 1⟩ : SaveState).db :=
        ⟨rfl, rfl, rfl, rfl, rfl, rfl, rfl, rowsKept_refl _, rowsKept_append _ _,
          rowsKept_refl _, rowsKept_refl _⟩
      rcases hsa : saveActivities fs st.db.nextId obj.activities 0
          ⟨{ st.db with
              objectives := st.db.objectives ++
                [⟨st.db.nextId, mid, obj.type, obj.content, obj.bloomsLevel, i⟩],
              nextId := st.db.nextId + 1 }, st.k + 1⟩ with ⟨st2, e?⟩
      have hacts := saveActivities_inner fs st.db.nextId obj.activities 0
        ⟨{ st.db with
            objectives := st.db.objectives ++
              [⟨st.db.nextId, mid, obj.type, obj.content, obj.bloomsLevel, i⟩],
            nextId := st.db.nextId + 1 }, st.k + 1⟩
      rw [hsa] at hacts
      cases e? with
      | some e => simpa [hsa] using innerStep_trans hobj hacts
      | none =>
        simp only [hsa]
        exact innerStep_trans (innerStep_trans hobj hacts) (ih (i + 1) st2)

theorem saveModules_inner (fs : List Nat) (cid sid : Nat) :
    ∀ (mods : List GenModule) (st : SaveState),
      InnerStep st.db (saveModules fs cid sid mods st).1.db := by
  intro mods
  induction mods with
  | nil => intro st; exact innerStep_refl _
  | cons m rest ih =>
    intro st
    rw [saveModules]
    split
    · exact innerStep_refl _
    · set st1 : SaveState :=
        ⟨{ st.db with
            modules := st.db.modules ++
              [⟨st.db.nextId, cid, m.moduleNumber, m.title, m.description, m.duration⟩],
            nextId := st.db.nextId + 1 }, st.k + 1⟩ with hst1
      have hmod : InnerStep st.db st1.db :=
        ⟨rfl, rfl, rfl, rfl, rfl, rfl, rfl, rowsKept_append _ _, rowsKept_refl _,
          rowsKept_refl _, rowsKept_refl _⟩
      set st2 : SaveState :=
        if insertFailsAt fs st1.k then { st1 with k := st1.k + 1 }
        else ⟨{ st1.db with mappings := st1.db.mappings ++ [⟨sid, st.db.nextId⟩] },
              st1.k + 1⟩ with hst2
      have hmap : InnerStep st1.db st2.db := by
        rw [hst2]
        split
        · exact innerStep_refl _
        · exact ⟨rfl, rfl, rfl, rfl, rfl, rfl, rfl, rowsKept_refl _,
            rowsKept_refl _, rowsKept_refl _, rowsKept_append _ _⟩
      rcases hso : saveObjectives fs st.db.nextId m.objectives 0 st2 with ⟨st3, e?⟩
      have hobjs := saveObjectives_inner fs st.db.nextId m.objectives 0 st2
      rw [hso] at hobjs
      have hpre : InnerStep st.db st3.db :=
        innerStep_trans (innerStep_trans hmod hmap) hobjs
      cases e? with
      | some e => simpa [hso] using hpre
      | none =>
        simp only [hso]
        exact innerStep_trans hpre (ih st3)

theorem saveActivitiesColl_inner (fs : List Nat) (oid : Nat) :
    ∀ (acts : List GenActivity) (j : Nat) (st : SaveState),
      InnerStep st.db (saveActivitiesColl fs oid acts j st).db := by
  intro acts
  induction acts with
  | nil => intro j st; exact innerStep_refl _
  | cons a rest ih =>
    intro j st
    rw [saveActivitiesColl]
    split
    · exact innerStep_trans (innerStep_refl _) (ih (j + 1) _)
    · have hact : InnerStep st.db
          (⟨{ st.db with
              activities := st.db.activities ++
                [⟨oid, a.instructionMethod, a.description, a.duration,
                  a.resources, j⟩] }, st.k + 1⟩ : SaveState).db :=
        ⟨rfl, rfl, rfl, rfl, rfl, rfl, rfl, rowsKept_refl _, rowsKept_refl _,
          rowsKept_append _ _, rowsKept_refl _⟩
      exact innerStep_trans hact (ih (j + 1) _)

theorem saveObjectivesColl_inner (fs : List Nat) (mid : Nat) :
    ∀ (objs : List GenObjective) (i : Nat) (st : SaveState),
      InnerStep st.db (saveObjectivesColl fs mid objs i st).1.db := by
  intro objs
  induction objs with
  | nil => intro i st; exact innerStep_refl _
  | cons obj rest ih =>
    intro i st
    rw [saveObjectivesColl]
    split
    · exact innerStep_refl _
    · have hobj : InnerStep st.db
          (⟨{ st.db with
              objectives := st.db.objectives ++
                [⟨st.db.nextId, mid, obj.type, obj.content, obj.bloomsLevel, i⟩],
              nextId := st.db.nextId + 1 }, st.k + 1⟩ : SaveState).db :=
        ⟨rfl, rfl, rfl, rfl, rfl, rfl, rfl, rowsKept_refl _, rowsKept_append _ _,
          rowsKept_refl _, rowsKept_refl _⟩
      have hacts := saveActivitiesColl_inner fs st.db.nextId obj.activities 0
        ⟨{ st.db with
            objectives := st.db.objectives ++
              [⟨st.db.nextId, mid, obj.type, obj.content, obj.bloomsLevel, i⟩],
            nextId := st.db.nextId + 1 }, st.k + 1⟩
      exact innerStep_trans (innerStep_trans hobj hacts) (ih (i + 1) _)

theorem saveModulesColl_inner (fs : List Nat) (cid : Nat) :
    ∀ (mods : List GenModule) (st : SaveState),
      InnerStep st.db (saveModulesColl fs cid mods st).1.db := by
  intro mods
  induction mods with
  | nil => intro st; exact innerStep_refl _
  | cons m rest ih =>
    intro st
    rw [saveModulesColl]
    split
    · exact innerStep_refl _
    · set st1 : SaveState :=
        ⟨{ st.db with
            modules := st.db.modules ++
              [⟨st.db.nextId, cid, m.moduleNumber, m.title, m.description, m.duration⟩],
            nextId := st.db.nextId + 1 }, st.k + 1⟩ with hst1
      have hmod : InnerStep st.db st1.db :=
        ⟨rfl, rfl, rfl, rfl, rfl, rfl, rfl, rowsKept_append _ _, rowsKept_refl _,
          rowsKept_refl _, rowsKept_refl _⟩
      rcases hso : saveObjectivesColl fs st.db.nextId m.objectives 0 st1 with ⟨st2, e?⟩
      have hobjs := saveObjectivesColl_inner fs st.db.nextId m.objectives 0 st1
      rw [hso] at hobjs
      have hpre : InnerStep st.db st2.db := innerStep_trans hmod hobjs
      cases e? with
      | some e => simpa [hso] using hpre
      | none =>
        simp only [hso]
        exact innerStep_trans hpre (ih st2)

theorem saveModules_result_inner {fs : List Nat} {cid sid : Nat}
    {mods : List GenModule} {st st' : SaveState} {e? : Option String}
    (h : saveModules fs cid sid mods st = (st', e?)) : InnerStep st.db st'.db := by
  have hin := saveModules_inner fs cid sid mods st
  rw [h] at hin
  exact hin

theorem saveModulesColl_result_inner {fs : List Nat} {cid : Nat}
    {mods : List GenModule} {st st' : SaveState} {e? : Option String}
    (h : saveModulesColl fs cid mods st = (st', e?)) : InnerStep st.db st'.db := by
  have hin := saveModulesColl_inner fs cid mods st
  rw [h] at hin
  exact hin

/-- The `courses` table after `PipelineOrchestrator.saveLesson`: unchanged
when the course insert fails, otherwise exactly the old table plus the one
new `draft` course row — whatever happens later in the fan-out. -/
theorem saveLesson_courses (db : DB) (fs : List Nat) (lesson : GeneratedLesson)
    (sid : Nat) (org : String) :
    (saveLesson db fs lesson sid org).1.courses =
      if insertFailsAt fs 0 then db.courses
      else db.courses ++ [courseRowOf db lesson org] := by
  by_cases h : insertFailsAt fs 0
  · simp [saveLesson, h]
  · simp only [saveLesson, h, Bool.false_eq_true, if_false]
    split
    · rename_i st e heq
      have hin := saveModules_result_inner heq
      rw [hin.1]
      rfl
    · rename_i st heq
      have hin := saveModules_result_inner heq
      rw [hin.1]
      rfl

/-- The `courses` table after `CollectionOrchestrator.saveLesson`. -/
theorem saveLessonColl_courses (db : DB) (fs : List Nat) (lesson : GeneratedLesson)
    (cid : Nat) (org : String) :
    (saveLessonColl db fs lesson cid org).1.courses =
      if insertFailsAt fs 0 then db.courses
      else db.courses ++ [collCourseRowOf db lesson cid org] := by
  by_cases h : insertFailsAt fs 0
  · simp [saveLessonColl, h]
  · simp only [saveLessonColl, h, Bool.false_eq_true, if_false]
    split
    · rename_i st e heq
      have hin := saveModulesColl_result_inner heq
      rw [hin.1]
      rfl
    · rename_i st heq
      have hin := saveModulesColl_result_inner heq
      rw [hin.1]
      rfl

theorem noRowsDeleted_refl (d : DB) : NoRowsDeleted d d :=
  ⟨rfl, rfl, rfl, rfl, rfl, rfl, rowsKept_refl _, rowsKept_refl _,
    rowsKept_refl _, rowsKept_refl _, rowsKept_refl _⟩

theorem saveLesson_noRowsDeleted (db : DB) (fs : List Nat)
    (lesson : GeneratedLesson) (sid : Nat) (org : String) :
    NoRowsDeleted db (saveLesson db fs lesson sid org).1 := by
  by_cases h : insertFailsAt fs 0
  · simp only [saveLesson, h, if_true]
    exact noRowsDeleted_refl _
  · simp only [saveLesson, h, Bool.false_eq_true, if_false]
    split
    all_goals
      rename_i heq
      obtain ⟨e1, e2, e3, e4, e5, e6, e7, k1, k2, k3, k4⟩ :=
        saveModules_result_inner heq
      exact ⟨e2, e3, e4, e5, e6, e7, ⟨_, e1⟩, k1, k2, k3, k4⟩

theorem saveLessonColl_noRowsDeleted (db : DB) (fs : List Nat)
    (lesson : GeneratedLesson) (cid : Nat) (org : String) :
    NoRowsDeleted db (saveLessonColl db fs lesson cid org).1 := by
  by_cases h : insertFailsAt fs 0
  · simp only [saveLessonColl, h, if_true]
    exact noRowsDeleted_refl _
  · simp only [saveLessonColl, h, Bool.false_eq_true, if_false]
    split
    all_goals
      rename_i heq
      obtain ⟨e1, e2, e3, e4, e5, e6, e7, k1, k2, k3, k4⟩ :=
        saveModulesColl_result_inner heq
      exact ⟨e2, e3, e4, e5, e6, e7, ⟨_, e1⟩, k1, k2, k3, k4⟩

/-- C1 — counterexample.  Materialization is NOT all-or-nothing: with the
module insert failing right after the course insert succeeded (one row
written), `saveLesson` propagates the error while the course row written by
the attempt is still visible in the store. -/
theorem saveLesson_partial_failure_leaves_row :
    (saveLesson { emptyDB with nextId := 10 } [1]
        ⟨⟨"T", "D", "", "", 0⟩, [⟨1, "M", "", "1h", []⟩], none⟩ 5 "org").2 =
      .error "Failed to create module" ∧
    (saveLesson { emptyDB with nextId := 10 } [1]
        ⟨⟨"T", "D", "", "", 0⟩, [⟨1, "M", "", "1h", []⟩], none⟩ 5 "org").1.courses =
      [⟨10, "org", none, "T", "D", none, none, none, "draft", none⟩] :=
  ⟨rfl, rfl⟩

/-- C1 (amended): neither `saveLesson` performs any compensating cleanup:
a run only ever appends rows, and once the course insert has succeeded the
new course row remains visible even when a later insert fails and the error
propagates. -/
theorem saveLesson_no_rollback (db : DB) (fs : List Nat)
    (lesson : GeneratedLesson) (n : Nat) (org : String) :
    (NoRowsDeleted db (saveLesson db fs lesson n org).1 ∧
      (insertFailsAt fs 0 = false →
        courseRowOf db lesson org ∈ (saveLesson db fs lesson n org).1.courses)) ∧
    (NoRowsDeleted db (saveLessonColl db fs lesson n org).1 ∧
      (insertFailsAt fs 0 = false →
        collCourseRowOf db lesson n org ∈ (saveLessonColl db fs lesson n org).1.courses)) := by
  refine ⟨⟨saveLesson_noRowsDeleted db fs lesson n org, fun h0 => ?_⟩,
    ⟨saveLessonColl_noRowsDeleted db fs lesson n org, fun h0 => ?_⟩⟩
  · rw [saveLesson_courses, h0]
    simp
  · rw [saveLessonColl_courses, h0]
    simp

theorem saveLesson_no_rollback_witness :
    courseRowOf { emptyDB with nextId := 10 }
        ⟨⟨"T", "D", "", "", 0⟩, [⟨1, "M", "", "1h", []⟩], none⟩ "org" ∈
      (saveLesson { emptyDB with nextId := 10 } [1]
        ⟨⟨"T", "D", "", "", 0⟩, [⟨1, "M", "", "1h", []⟩], none⟩ 5 "org").1.courses :=
  (saveLesson_no_rollback { emptyDB with nextId := 10 } [1]
    ⟨⟨"T", "D", "", "", 0⟩, [⟨1, "M", "", "1h", []⟩], none⟩ 5 "org").1.2 (by decide)

/-- C10: every course row created by materialization — in both the
single-source and the collection variant — is inserted with status `draft`,
whatever the generated lesson tree contains. -/
theorem materialized_course_status_draft (db : DB) (fs : List Nat)
    (lesson : GeneratedLesson) (n : Nat) (org : String) (c : CourseRow) :
    (c ∈ (saveLesson db fs lesson n org).1.courses →
      c ∈ db.courses ∨ c.status = "draft") ∧
    (c ∈ (saveLessonColl db fs lesson n org).1.courses →
      c ∈ db.courses ∨ c.status = "draft") := by
  constructor
  · intro hc
    rw [saveLesson_courses] at hc
    by_cases h : insertFailsAt fs 0
    · simp only [h, if_true] at hc
      exact Or.inl hc
    · simp only [h, Bool.false_eq_true, if_false] at hc
      rcases List.mem_append.mp hc with hold | hnew
      · exact Or.inl hold
      · right
        rw [List.mem_singleton.mp hnew]
        rfl
  · intro hc
    rw [saveLessonColl_courses] at hc
    by_cases h : insertFailsAt fs 0
    · simp only [h, if_true] at hc
      exact Or.inl hc
    · simp only [h, Bool.false_eq_true, if_false] at hc
      rcases List.mem_append.mp hc with hold | hnew
      · exact Or.inl hold
      · right
        rw [List.mem_singleton.mp hnew]
        rfl

theorem materialized_course_status_draft_witness :
    (⟨0, "org", none, "T", "D", none, none, none, "draft", none⟩ : CourseRow) ∈
        emptyDB.courses ∨
      (⟨0, "org", none, "T", "D", none, none, none, "draft", none⟩ : CourseRow).status =
        "draft" :=
  (materialized_course_status_draft emptyDB [] ⟨⟨"T", "D", "", "", 0⟩, [], none⟩
    5 "org" ⟨0, "org", none, "T", "D", none, none, none, "draft", none⟩).1
    (by decide)

/-! ## Lemmas about the status helpers -/

theorem updateSourceStatus_sources_of_skipped (db : DB) (sid : Nat) (st : String) :
    updateSourceStatus db true sid st = db := by
  simp [updateSourceStatus]

theorem updateSourceStatus_sourceAnalyses (db : DB) (b : Bool) (sid : Nat)
    (st : String) : (updateSourceStatus db b sid st).sourceAnalyses = db.sourceAnalyses := by
  unfold updateSourceStatus; split <;> rfl

theorem updateSourceStatus_courses (db : DB) (b : Bool) (sid : Nat)
    (st : String) : (updateSourceStatus db b sid st).courses = db.courses := by
  unfold updateSourceStatus; split <;> rfl

theorem updateSourceStatus_modules (db : DB) (b : Bool) (sid : Nat)
    (st : String) : (updateSourceStatus db b sid st).modules = db.modules := by
  unfold updateSourceStatus; split <;> rfl

theorem updateSourceStatus_objectives (db : DB) (b : Bool) (sid : Nat)
    (st : String) : (updateSourceStatus db b sid st).objectives = db.objectives := by
  unfold updateSourceStatus; split <;> rfl

theorem updateSourceStatus_collections (db : DB) (b : Bool) (sid : Nat)
    (st : String) : (updateSourceStatus db b sid st).collections = db.collections := by
  unfold updateSourceStatus; split <;> rfl

theorem updateSourceStatus_collectionSources (db : DB) (b : Bool) (sid : Nat)
    (st : String) :
    (updateSourceStatus db b sid st).collectionSources = db.collectionSources := by
  unfold updateSourceStatus; split <;> rfl

theorem updateSourceStatus_collectionAnalyses (db : DB) (b : Bool) (sid : Nat)
    (st : String) :
    (updateSourceStatus db b sid st).collectionAnalyses = db.collectionAnalyses := by
  unfold updateSourceStatus; split <;> rfl

theorem updateSourceStatus_nextId (db : DB) (b : Bool) (sid : Nat)
    (st : String) : (updateSourceStatus db b sid st).nextId = db.nextId := by
  unfold updateSourceStatus; split <;> rfl

theorem updateSourceStatus_clock (db : DB) (b : Bool) (sid : Nat)
    (st : String) : (updateSourceStatus db b sid st).clock = db.clock := by
  unfold updateSourceStatus; split <;> rfl

attribute [simp] updateSourceStatus_sourceAnalyses updateSourceStatus_courses
  updateSourceStatus_modules updateSourceStatus_objectives
  updateSourceStatus_collections updateSourceStatus_collectionSources
  updateSourceStatus_collectionAnalyses updateSourceStatus_nextId
  updateSourceStatus_clock

theorem updateCollectionStatus_sources (db : DB) (b : Bool) (cid : Nat)
    (st : String) (stamp : Option Nat) :
    (updateCollectionStatus db b cid st stamp).sources = db.sources := by
  unfold updateCollectionStatus; split <;> rfl

theorem updateCollectionStatus_sourceAnalyses (db : DB) (b : Bool) (cid : Nat)
    (st : String) (stamp : Option Nat) :
    (updateCollectionStatus db b cid st stamp).sourceAnalyses = db.sourceAnalyses := by
  unfold updateCollectionStatus; split <;> rfl

theorem updateCollectionStatus_courses (db : DB) (b : Bool) (cid : Nat)
    (st : String) (stamp : Option Nat) :
    (updateCollectionStatus db b cid st stamp).courses = db.courses := by
  unfold updateCollectionStatus; split <;> rfl

theorem updateCollectionStatus_collectionSources (db : DB) (b : Bool) (cid : Nat)
    (st : String) (stamp : Option Nat) :
    (updateCollectionStatus db b cid st stamp).collectionSources = db.collectionSources := by
  unfold updateCollectionStatus; split <;> rfl

theorem updateCollectionStatus_collectionAnalyses (db : DB) (b : Bool) (cid : Nat)
    (st : String) (stamp : Option Nat) :
    (updateCollectionStatus db b cid st stamp).collectionAnalyses = db.collectionAnalyses := by
  unfold updateCollectionStatus; split <;> rfl

theorem updateCollectionStatus_nextId (db : DB) (b : Bool) (cid : Nat)
    (st : String) (stamp : Option Nat) :
    (updateCollectionStatus db b cid st stamp).nextId = db.nextId := by
  unfold updateCollectionStatus; split <;> rfl

theorem updateCollectionStatus_clock (db : DB) (b : Bool) (cid : Nat)
    (st : String) (stamp : Option Nat) :
    (updateCollectionStatus db b cid st stamp).clock = db.clock := by
  unfold updateCollectionStatus; split <;> rfl

attribute [simp] updateCollectionStatus_sources updateCollectionStatus_sourceAnalyses
  updateCollectionStatus_courses updateCollectionStatus_collectionSources
  updateCollectionStatus_collectionAnalyses updateCollectionStatus_nextId
  updateCollectionStatus_clock

theorem createNotebookForCourse_sources (db : DB) (b : Bool) (cid : Nat) :
    (createNotebookForCourse db b cid).sources = db.sources := by
  unfold createNotebookForCourse; split <;> rfl

theorem createNotebookForCourse_sourceAnalyses (db : DB) (b : Bool) (cid : Nat) :
    (createNotebookForCourse db b cid).sourceAnalyses = db.sourceAnalyses := by
  unfold createNotebookForCourse; split <;> rfl

theorem createNotebookForCourse_collections (db : DB) (b : Bool) (cid : Nat) :
    (createNotebookForCourse db b cid).collections = db.collections := by
  unfold createNotebookForCourse; split <;> rfl

theorem createNotebookForCourse_nextId (db : DB) (b : Bool) (cid : Nat) :
    (createNotebookForCourse db b cid).nextId = db.nextId := by
  unfold createNotebookForCourse; split <;> rfl

attribute [simp] createNotebookForCourse_sources createNotebookForCourse_sourceAnalyses
  createNotebookForCourse_collections createNotebookForCourse_nextId

/-- Every source row matching the id carries the written status after a
successful status write. -/
theorem updateSourceStatus_status {db : DB} {sid : Nat} {status : String}
    (s : SourceRow) (hs : s ∈ (updateSourceStatus db false sid status).sources)
    (hid : s.id = sid) : s.status = status := by
  simp only [updateSourceStatus, Bool.false_eq_true, if_false] at hs
  rcases List.mem_map.mp hs with ⟨x, _, hfx⟩
  by_cases hxid : x.id = sid
  · rw [if_pos hxid] at hfx
    rw [← hfx]
  · rw [if_neg hxid] at hfx
    cases hfx
    exact absurd hid hxid

theorem updateCollectionStatus_other (db : DB) (b : Bool) (cid : Nat)
    (st : String) (stamp : Option Nat) :
    (updateCollectionStatus db b cid st stamp).sources = db.sources ∧
    (updateCollectionStatus db b cid st stamp).sourceAnalyses = db.sourceAnalyses ∧
    (updateCollectionStatus db b cid st stamp).courses = db.courses ∧
    (updateCollectionStatus db b cid st stamp).collectionSources = db.collectionSources ∧
    (updateCollectionStatus db b cid st stamp).collectionAnalyses = db.collectionAnalyses ∧
    (updateCollectionStatus db b cid st stamp).nextId = db.nextId ∧
    (updateCollectionStatus db b cid st stamp).clock = db.clock := by
  unfold updateCollectionStatus
  split <;> exact ⟨rfl, rfl, rfl, rfl, rfl, rfl, rfl⟩

/-- Every collection row matching the id carries the written status (and
the stamped completion time, when one was given) after a successful status
write. -/
theorem updateCollectionStatus_status {db : DB} {cid : Nat} {status : String}
    {stamp : Option Nat} (c : CollectionRow)
    (hc : c ∈ (updateCollectionStatus db false cid status stamp).collections)
    (hid : c.id = cid) :
    c.status = status ∧ (∀ t, stamp = some t → c.analysisCompletedAt = some t) := by
  simp only [updateCollectionStatus, Bool.false_eq_true, if_false] at hc
  rcases List.mem_map.mp hc with ⟨x, _, hfx⟩
  by_cases hxid : x.id = cid
  · rw [if_pos hxid] at hfx
    refine ⟨by rw [← hfx], fun t ht => ?_⟩
    rw [← hfx]
    simp [ht]
  · rw [if_neg hxid] at hfx
    cases hfx
    exact absurd hid hxid

theorem createNotebookForCourse_other (db : DB) (b : Bool) (cid : Nat) :
    (createNotebookForCourse db b cid).sources = db.sources ∧
    (createNotebookForCourse db b cid).sourceAnalyses = db.sourceAnalyses ∧
    (createNotebookForCourse db b cid).modules = db.modules ∧
    (createNotebookForCourse db b cid).objectives = db.objectives ∧
    (createNotebookForCourse db b cid).activities = db.activities ∧
    (createNotebookForCourse db b cid).mappings = db.mappings ∧
    (createNotebookForCourse db b cid).collections = db.collections ∧
    (createNotebookForCourse db b cid).nextId = db.nextId ∧
    (createNotebookForCourse db b cid).clock = db.clock := by
  unfold createNotebookForCourse
  split <;> exact ⟨rfl, rfl, rfl, rfl, rfl, rfl, rfl, rfl, rfl⟩

/-- The notebook step only touches the `notebook_id` column: every course
row survives with its id, title and status intact. -/
theorem createNotebookForCourse_mem (b : Bool) (cid : Nat) {db : DB}
    {c : CourseRow} (hc : c ∈ db.courses) :
    ∃ c' ∈ (createNotebookForCourse db b cid).courses,
      c'.id = c.id ∧ c'.title = c.title ∧ c'.status = c.status := by
  unfold createNotebookForCourse
  split
  · exact ⟨c, hc, rfl, rfl, rfl⟩
  · refine ⟨_, List.mem_map_of_mem _ hc, ?_⟩
    split <;> exact ⟨rfl, rfl, rfl⟩

/-! ## A fault-free materialization run always succeeds -/

theorem insertFailsAt_nil (k : Nat) : insertFailsAt [] k = false := rfl

theorem saveActivities_nofail (oid : Nat) :
    ∀ (acts : List GenActivity) (j : Nat) (st : SaveState),
      (saveActivities [] oid acts j st).2 = none := by
  intro acts
  induction acts with
  | nil => intro j st; rfl
  | cons a rest ih =>
    intro j st
    rw [saveActivities, insertFailsAt_nil]
    simp only [Bool.false_eq_true, if_false]
    exact ih (j + 1) _

theorem saveActivities_nofail_result {oid : Nat} {acts : List GenActivity}
    {j : Nat} {st st' : SaveState} {e? : Option String}
    (h : saveActivities [] oid acts j st = (st', e?)) : e? = none := by
  have h0 := saveActivities_nofail oid acts j st
  rw [h] at h0
  exact h0

theorem saveObjectives_nofail (mid : Nat) :
    ∀ (objs : List GenObjective) (i : Nat) (st : SaveState),
      (saveObjectives [] mid objs i st).2 = none := by
  intro objs
  induction objs with
  | nil => intro i st; rfl
  | cons obj rest ih =>
    intro i st
    rw [saveObjectives, insertFailsAt_nil]
    simp only [Bool.false_eq_true, if_false]
    rcases hsa : saveActivities [] st.db.nextId obj.activities 0
        ⟨{ st.db with
            objectives := st.db.objectives ++
              [⟨st.db.nextId, mid, obj.type, obj.content, obj.bloomsLevel, i⟩],
            nextId := st.db.nextId + 1 }, st.k + 1⟩ with ⟨st2, e?⟩
    cases saveActivities_nofail_result hsa
    simp only [hsa]
    exact ih (i + 1) st2

theorem saveObjectives_nofail_result {mid : Nat} {objs : List GenObjective}
    {i : Nat} {st st' : SaveState} {e? : Option String}
    (h : saveObjectives [] mid objs i st = (st', e?)) : e? = none := by
  have h0 := saveObjectives_nofail mid objs i st
  rw [h] at h0
  exact h0

theorem saveModules_nofail (cid sid : Nat) :
    ∀ (mods : List GenModule) (st : SaveState),
      (saveModules [] cid sid mods st).2 = none := by
  intro mods
  induction mods with
  | nil => intro st; rfl
  | cons m rest ih =>
    intro st
    rw [saveModules, insertFailsAt_nil]
    simp only [Bool.false_eq_true, if_false, insertFailsAt_nil]
    rcases hso : saveObjectives [] st.db.nextId m.objectives 0 _ with ⟨st3, e?⟩
    cases saveObjectives_nofail_result hso
    simp only [hso]
    exact ih st3

theorem saveModules_nofail_result {cid sid : Nat} {mods : List GenModule}
    {st st' : SaveState} {e? : Option String}
    (h : saveModules [] cid sid mods st = (st', e?)) : e? = none := by
  have h0 := saveModules_nofail cid sid mods st
  rw [h] at h0
  exact h0

/-- With no injected insert failure, `saveLesson` succeeds and returns the
fresh course id. -/
theorem saveLesson_ok (db : DB) (lesson : GeneratedLesson) (sid : Nat)
    (org : String) : (saveLesson db [] lesson sid org).2 = .ok db.nextId := by
  rw [saveLesson, insertFailsAt_nil]
  simp only [Bool.false_eq_true, if_false]
  rcases hsm : saveModules [] db.nextId sid lesson.modules _ with ⟨st, e?⟩
  cases saveModules_nofail_result hsm
  simp only [hsm]

theorem saveLesson_ok_result {db : DB} {lesson : GeneratedLesson} {sid : Nat}
    {org : String} {p : DB × Except String Nat}
    (h : saveLesson db [] lesson sid org = p) : p.2 = .ok db.nextId := by
  rw [← h]
  exact saveLesson_ok db lesson sid org

theorem saveLesson_result_courses {db : DB} {fs : List Nat}
    {lesson : GeneratedLesson} {sid : Nat} {org : String}
    {p : DB × Except String Nat} (h : saveLesson db fs lesson sid org = p) :
    p.1.courses =
      if insertFailsAt fs 0 then db.courses
      else db.courses ++ [courseRowOf db lesson org] := by
  rw [← h]
  exact saveLesson_courses db fs lesson sid org

theorem saveLesson_result_kept {db : DB} {fs : List Nat}
    {lesson : GeneratedLesson} {sid : Nat} {org : String}
    {p : DB × Except String Nat} (h : saveLesson db fs lesson sid org = p) :
    NoRowsDeleted db p.1 := by
  rw [← h]
  exact saveLesson_noRowsDeleted db fs lesson sid org

theorem saveObjectivesColl_nofail (mid : Nat) :
    ∀ (objs : List GenObjective) (i : Nat) (st : SaveState),
      (saveObjectivesColl [] mid objs i st).2 = none := by
  intro objs
  induction objs with
  | nil => intro i st; rfl
  | cons obj rest ih =>
    intro i st
    rw [saveObjectivesColl, insertFailsAt_nil]
    simp only [Bool.false_eq_true, if_false]
    exact ih (i + 1) _

theorem saveObjectivesColl_nofail_result {mid : Nat} {objs : List GenObjective}
    {i : Nat} {st st' : SaveState} {e? : Option String}
    (h : saveObjectivesColl [] mid objs i st = (st', e?)) : e? = none := by
  have h0 := saveObjectivesColl_nofail mid objs i st
  rw [h] at h0
  exact h0

theorem saveModulesColl_nofail (cid : Nat) :
    ∀ (mods : List GenModule) (st : SaveState),
      (saveModulesColl [] cid mods st).2 = none := by
  intro mods
  induction mods with
  | nil => intro st; rfl
  | cons m rest ih =>
    intro st
    rw [saveModulesColl, insertFailsAt_nil]
    simp only [Bool.false_eq_true, if_false]
    rcases hso : saveObjectivesColl [] st.db.nextId m.objectives 0 _ with ⟨st2, e?⟩
    cases saveObjectivesColl_nofail_result hso
    simp only [hso]
    exact ih st2

theorem saveModulesColl_nofail_result {cid : Nat} {mods : List GenModule}
    {st st' : SaveState} {e? : Option String}
    (h : saveModulesColl [] cid mods st = (st', e?)) : e? = none := by
  have h0 := saveModulesColl_nofail cid mods st
  rw [h] at h0
  exact h0

/-- With no injected insert failure, the collection variant of `saveLesson`
succeeds and returns the fresh course id. -/
theorem saveLessonColl_ok (db : DB) (lesson : GeneratedLesson) (cid : Nat)
    (org : String) : (saveLessonColl db [] lesson cid org).2 = .ok db.nextId := by
  rw [saveLessonColl, insertFailsAt_nil]
  simp only [Bool.false_eq_true, if_false]
  rcases hsm : saveModulesColl [] db.nextId lesson.modules _ with ⟨st, e?⟩
  cases saveModulesColl_nofail_result hsm
  simp only [hsm]

/-! ## Claims about the single-source pipeline -/

/-- C2 — counterexample.  Neither pipeline validates the generated lesson
tree.  Single-source: a lesson whose only module has zero objectives
(violating invariant 2) is not rejected — the run succeeds and the Course
row and the empty module are persisted.  Collection variant: a lesson whose
objective carries the source-id tag 999, not a member of collection 1
(whose only member is source 2), is not rejected either — the run succeeds
and the Course row is persisted. -/
theorem invalid_lesson_tree_persisted :
    (processSourceToLesson emptyDB
        ⟨none, false, false, .ok "analysis", false,
          .ok ⟨⟨"T", "D", "", "", 0⟩, [⟨1, "M", "", "1h", []⟩], none⟩, [],
          false, false, false⟩ "url" .youtube none "org").2 = .ok 1 ∧
    (processSourceToLesson emptyDB
        ⟨none, false, false, .ok "analysis", false,
          .ok ⟨⟨"T", "D", "", "", 0⟩, [⟨1, "M", "", "1h", []⟩], none⟩, [],
          false, false, false⟩ "url" .youtube none "org").1.courses =
      [⟨1, "org", none, "T", "D", none, none, none, "draft", some "pending"⟩] ∧
    (processSourceToLesson emptyDB
        ⟨none, false, false, .ok "analysis", false,
          .ok ⟨⟨"T", "D", "", "", 0⟩, [⟨1, "M", "", "1h", []⟩], none⟩, [],
          false, false, false⟩ "url" .youtube none "org").1.modules =
      [⟨2, 1, 1, "M", "", "1h"⟩] ∧
    (processSourceToLesson emptyDB
        ⟨none, false, false, .ok "analysis", false,
          .ok ⟨⟨"T", "D", "", "", 0⟩, [⟨1, "M", "", "1h", []⟩], none⟩, [],
          false, false, false⟩ "url" .youtube none "org").1.objectives = [] ∧
    (collectionMemberSources
        ⟨[⟨2, some "org", .pdf, "u", "t", "completed", none, none⟩],
          [⟨2, "gemini_document", "a", 10⟩], [], [], [], [], [],
          [⟨1, "org", "C", "", "ready", some 5⟩], [⟨1, 2, 0⟩],
          [⟨1, "cross_source_synthesis", ⟨"syn", "strat"⟩, 1, 5⟩], 3, 11⟩
        1).map (fun s => s.id) = [2] ∧
    (processCollectionToLesson
        ⟨[⟨2, some "org", .pdf, "u", "t", "completed", none, none⟩],
          [⟨2, "gemini_document", "a", 10⟩], [], [], [], [], [],
          [⟨1, "org", "C", "", "ready", some 5⟩], [⟨1, 2, 0⟩],
          [⟨1, "cross_source_synthesis", ⟨"syn", "strat"⟩, 1, 5⟩], 3, 11⟩
        ⟨⟨.error "unused", false, false, false⟩,
          .ok ⟨⟨"T2", "D2", "c2", "i2", 60⟩,
            [⟨1, "M2", "", "1h", [⟨"terminal", "content", "apply", [999], []⟩]⟩],
            none⟩, []⟩ 1 "org").2 = .ok 3 ∧
    (processCollectionToLesson
        ⟨[⟨2, some "org", .pdf, "u", "t", "completed", none, none⟩],
          [⟨2, "gemini_document", "a", 10⟩], [], [], [], [], [],
          [⟨1, "org", "C", "", "ready", some 5⟩], [⟨1, 2, 0⟩],
          [⟨1, "cross_source_synthesis", ⟨"syn", "strat"⟩, 1, 5⟩], 3, 11⟩
        ⟨⟨.error "unused", false, false, false⟩,
          .ok ⟨⟨"T2", "D2", "c2", "i2", 60⟩,
            [⟨1, "M2", "", "1h", [⟨"terminal", "content", "apply", [999], []⟩]⟩],
            none⟩, []⟩ 1 "org").1.courses =
      [⟨3, "org", some 1, "T2", "D2", some "c2", some "i2", some 60, "draft",
        none⟩] :=
  ⟨rfl, rfl, rfl, rfl, rfl, rfl, rfl⟩

/-- C2 (amended): neither cited pipeline validates the generated lesson
tree before persisting it: whatever tree the adapter returns — including
one violating invariants 2–3 or, in the collection variant, carrying
non-member source-id tags — the run succeeds and the Course row is
persisted. -/
theorem no_lesson_tree_validation (db : DB) (env : PipeEnv)
    (url : String) (ty : SourceType) (file? : Option String) (org : String)
    (lesson : GeneratedLesson) (a : String) (db2 : DB) (cenv : CollEnv)
    (cid : Nat) (org2 : String) (lesson2 : GeneratedLesson)
    (coll : CollectionRow) (arow : CollectionAnalysisRow)
    (h1 : env.createFails = false)
    (h0 : env.procWriteFails = false)
    (h3 : analyzeSource env ty file? = .ok a)
    (h4 : env.saveAnalysisFails = false)
    (h5 : env.genResult = .ok lesson)
    (h6 : env.saveFailSet = [])
    (g1 : latestCollectionAnalysis db2 cid = some arow)
    (g2 : db2.collections.find? (fun c => c.id = cid) = some coll)
    (g3 : cenv.genResult = .ok lesson2)
    (g4 : cenv.saveFailSet = []) :
    ((processSourceToLesson db env url ty file? org).2 = .ok (db.nextId + 1) ∧
      ∃ c ∈ (processSourceToLesson db env url ty file? org).1.courses,
        c.id = db.nextId + 1 ∧ c.title = lesson.course.title ∧
          c.status = "draft") ∧
    ((processCollectionToLesson db2 cenv cid org2).2 = .ok db2.nextId ∧
      ∃ c ∈ (processCollectionToLesson db2 cenv cid org2).1.courses,
        c.id = db2.nextId ∧ c.title = lesson2.course.title ∧
          c.status = "draft") := by
  constructor
  · simp only [processSourceToLesson, h1, h0, h3, h4, h5, h6, Bool.false_eq_true,
      if_false]
    split
    · rename_i db4 e heq
      have hok := saveLesson_ok_result heq
      simp at hok
    · rename_i db4 courseId heq
      have hok := saveLesson_ok_result heq
      simp only at hok
      constructor
      · simp [hok]
      · have hcourses := saveLesson_result_courses heq
        rw [insertFailsAt_nil] at hcourses
        simp only [Bool.false_eq_true, if_false] at hcourses
        have hmem : ∃ c ∈ db4.courses,
            c.id = db.nextId + 1 ∧ c.title = lesson.course.title ∧
              c.status = "draft" := by
          rw [hcourses]
          refine ⟨_, List.mem_append_right _ (List.mem_singleton_self _), ?_, rfl, rfl⟩
          simp [courseRowOf]
        obtain ⟨c0, hc0, hid, htitle, hstatus⟩ := hmem
        obtain ⟨c', hc', hid', htitle', hstatus'⟩ :=
          createNotebookForCourse_mem env.nbUpdateFails courseId hc0
        exact ⟨c', by simpa using hc', by rw [hid', hid], by rw [htitle', htitle],
          by rw [hstatus', hstatus]⟩
  · simp only [processCollectionToLesson, ensureCollectionAnalysis, g1,
      generateFromCollection, g2, g3, g4]
    constructor
    · exact saveLessonColl_ok _ _ _ _
    · rw [saveLessonColl_courses, insertFailsAt_nil]
      simp only [Bool.false_eq_true, if_false]
      exact ⟨_, List.mem_append_right _ (List.mem_singleton_self _), rfl, rfl, rfl⟩

theorem no_lesson_tree_validation_witness :
    ((processSourceToLesson emptyDB
        ⟨none, false, false, .ok "analysis", false,
          .ok ⟨⟨"T", "D", "", "", 0⟩, [⟨1, "M", "", "1h", []⟩], none⟩, [],
          true, false, false⟩ "url" .youtube none "org").2 = .ok 1 ∧
      ∃ c ∈ (processSourceToLesson emptyDB
          ⟨none, false, false, .ok "analysis", false,
            .ok ⟨⟨"T", "D", "", "", 0⟩, [⟨1, "M", "", "1h", []⟩], none⟩, [],
            true, false, false⟩ "url" .youtube none "org").1.courses,
        c.id = 1 ∧ c.title = "T" ∧ c.status = "draft") ∧
    ((processCollectionToLesson
        ⟨[⟨2, some "org", .pdf, "u", "t", "completed", none, none⟩],
          [⟨2, "gemini_document", "a", 10⟩], [], [], [], [], [],
          [⟨1, "org", "C", "", "ready", some 5⟩], [⟨1, 2, 0⟩],
          [⟨1, "cross_source_synthesis", ⟨"syn", "strat"⟩, 1, 5⟩], 3, 11⟩
        ⟨⟨.error "unused", false, false, false⟩,
          .ok ⟨⟨"T2", "D2", "c2", "i2", 60⟩,
            [⟨1, "M2", "", "1h", [⟨"terminal", "content", "apply", [999], []⟩]⟩],
            none⟩, []⟩ 1 "org").2 = .ok 3 ∧
      ∃ c ∈ (processCollectionToLesson
          ⟨[⟨2, some "org", .pdf, "u", "t", "completed", none, none⟩],
            [⟨2, "gemini_document", "a", 10⟩], [], [], [], [], [],
            [⟨1, "org", "C", "", "ready", some 5⟩], [⟨1, 2, 0⟩],
            [⟨1, "cross_source_synthesis", ⟨"syn", "strat"⟩, 1, 5⟩], 3, 11⟩
          ⟨⟨.error "unused", false, false, false⟩,
            .ok ⟨⟨"T2", "D2", "c2", "i2", 60⟩,
              [⟨1, "M2", "", "1h",
                [⟨"terminal", "content", "apply", [999], []⟩]⟩],
              none⟩, []⟩ 1 "org").1.courses,
        c.id = 3 ∧ c.title = "T2" ∧ c.status = "draft") :=
  no_lesson_tree_validation emptyDB
    ⟨none, false, false, .ok "analysis", false,
      .ok ⟨⟨"T", "D", "", "", 0⟩, [⟨1, "M", "", "1h", []⟩], none⟩, [],
      true, false, false⟩ "url" .youtube none "org"
    ⟨⟨"T", "D", "", "", 0⟩, [⟨1, "M", "", "1h", []⟩], none⟩ "analysis"
    ⟨[⟨2, some "org", .pdf, "u", "t", "completed", none, none⟩],
      [⟨2, "gemini_document", "a", 10⟩], [], [], [], [], [],
      [⟨1, "org", "C", "", "ready", some 5⟩], [⟨1, 2, 0⟩],
      [⟨1, "cross_source_synthesis", ⟨"syn", "strat"⟩, 1, 5⟩], 3, 11⟩
    ⟨⟨.error "unused", false, false, false⟩,
      .ok ⟨⟨"T2", "D2", "c2", "i2", 60⟩,
        [⟨1, "M2", "", "1h", [⟨"terminal", "content", "apply", [999], []⟩]⟩],
        none⟩, []⟩ 1 "org"
    ⟨⟨"T2", "D2", "c2", "i2", 60⟩,
      [⟨1, "M2", "", "1h", [⟨"terminal", "content", "apply", [999], []⟩]⟩],
      none⟩
    ⟨1, "org", "C", "", "ready", some 5⟩
    ⟨1, "cross_source_synthesis", ⟨"syn", "strat"⟩, 1, 5⟩
    rfl rfl rfl rfl rfl rfl rfl rfl rfl rfl

/-- C3 — counterexample.  `addSourceToCollection` performs no failed-status
write on its error path: when the transcript fetch throws after the Source
row was created in status `processing`, the wrapped error propagates and
the Source remains in status `processing`. -/
theorem addSource_failure_leaves_source_processing :
    (addSourceToCollection
        { emptyDB with collections := [⟨1, "org", "C", "", "ready", none⟩] }
        ⟨none, false, .error "transcript unavailable", .ok "a", false, false,
          .ok "d", false, false, false⟩ 1 "url" .youtube none).2 =
      .error "Failed to add source to collection: transcript unavailable" ∧
    (addSourceToCollection
        { emptyDB with collections := [⟨1, "org", "C", "", "ready", none⟩] }
        ⟨none, false, .error "transcript unavailable", .ok "a", false, false,
          .ok "d", false, false, false⟩ 1 "url" .youtube none).1.sources =
      [⟨0, some "org", .youtube, "url", "url", "processing", none, none⟩] :=
  ⟨rfl, rfl⟩

/-- C3 (amended): in the single-source pipeline the guarantee holds — with
the status writes applying, every invocation that created a Source leaves
it in `completed` or `failed`, never `processing`; `addSourceToCollection`,
however, writes no `failed` status on its error paths, so a Source that
fails there after creation stays `processing`. -/
theorem processSourceToLesson_terminal_status (db : DB) (env : PipeEnv)
    (url : String) (ty : SourceType) (file? : Option String) (org : String)
    (h1 : env.createFails = false)
    (h2 : env.completedWriteFails = false)
    (h3 : env.failedWriteFails = false) :
    ∀ s ∈ (processSourceToLesson db env url ty file? org).1.sources,
      s.id = db.nextId → s.status = "completed" ∨ s.status = "failed" := by
  simp only [processSourceToLesson, h1, h2, h3, Bool.false_eq_true, if_false]
  split
  · exact fun s hs hid => Or.inr (updateSourceStatus_status s hs hid)
  · split
    · exact fun s hs hid => Or.inr (updateSourceStatus_status s hs hid)
    · split
      · exact fun s hs hid => Or.inr (updateSourceStatus_status s hs hid)
      · split
        · exact fun s hs hid => Or.inr (updateSourceStatus_status s hs hid)
        · exact fun s hs hid => Or.inl (updateSourceStatus_status s hs hid)

theorem processSourceToLesson_terminal_status_witness :
    (⟨0, some "org", .youtube, "url", "url", "failed", none, none⟩ :
        SourceRow).status = "completed" ∨
    (⟨0, some "org", .youtube, "url", "url", "failed", none, none⟩ :
        SourceRow).status = "failed" :=
  processSourceToLesson_terminal_status emptyDB
    ⟨none, false, false, .error "network", false, .error "unused", [],
      false, false, false⟩ "url" .youtube none "org" rfl rfl rfl
    ⟨0, some "org", .youtube, "url", "url", "failed", none, none⟩
    (by decide) (by decide)

/-- C9: `updateSourceStatus` discards the database update's result, so the
mandatory `failed` write on the error path can itself fail silently: the
caller still receives the original pipeline error while the Source's stored
status remains `processing`. -/
theorem failed_status_write_swallowed (db : DB) (env : PipeEnv) (url : String)
    (ty : SourceType) (file? : Option String) (org : String) (e : String)
    (h1 : env.createFails = false)
    (h2 : env.procWriteFails = false)
    (h3 : analyzeSource env ty file? = .error e)
    (h4 : env.failedWriteFails = true) :
    (processSourceToLesson db env url ty file? org).2 = .error e ∧
    ∀ s ∈ (processSourceToLesson db env url ty file? org).1.sources,
      s.id = db.nextId → s.status = "processing" := by
  simp only [processSourceToLesson, h1, h2, h3, h4, Bool.false_eq_true, if_false,
    updateSourceStatus_sources_of_skipped]
  exact ⟨trivial, fun s hs hid => updateSourceStatus_status s hs hid⟩

theorem failed_status_write_swallowed_witness :
    (processSourceToLesson emptyDB
        ⟨none, false, false, .error "network", false, .error "unused", [],
          false, false, true⟩ "url" .youtube none "org").2 = .error "network" ∧
    (⟨0, some "org", .youtube, "url", "url", "processing", none, none⟩ :
        SourceRow).status = "processing" :=
  ⟨(failed_status_write_swallowed emptyDB
      ⟨none, false, false, .error "network", false, .error "unused", [],
        false, false, true⟩ "url" .youtube none "org" "network" rfl rfl rfl rfl).1,
    (failed_status_write_swallowed emptyDB
      ⟨none, false, false, .error "network", false, .error "unused", [],
        false, false, true⟩ "url" .youtube none "org" "network" rfl rfl rfl rfl).2
      ⟨0, some "org", .youtube, "url", "url", "processing", none, none⟩
      (by decide) (by decide)⟩

/-- C4 — counterexample.  `addSourceToCollection` marks a Source `completed`
even when no Content Analysis was written: for a pdf added with no file
data, analysis is skipped with a warning, yet the source ends in status
`completed` with zero Content Analysis rows. -/
theorem addSource_completed_without_analysis :
    (addSourceToCollection
        { emptyDB with collections := [⟨1, "org", "C", "", "ready", none⟩] }
        ⟨none, false, .ok [], .ok "a", false, false, .ok "d", false, false, false⟩
        1 "u" .pdf none).2 = .ok 0 ∧
    (addSourceToCollection
        { emptyDB with collections := [⟨1, "org", "C", "", "ready", none⟩] }
        ⟨none, false, .ok [], .ok "a", false, false, .ok "d", false, false, false⟩
        1 "u" .pdf none).1.sources =
      [⟨0, some "org", .pdf, "u", "u", "completed", none, none⟩] ∧
    (addSourceToCollection
        { emptyDB with collections := [⟨1, "org", "C", "", "ready", none⟩] }
        ⟨none, false, .ok [], .ok "a", false, false, .ok "d", false, false, false⟩
        1 "u" .pdf none).1.sourceAnalyses = [] :=
  ⟨rfl, rfl, rfl⟩

/-- C4 (amended): after a successful single-source pipeline run the Source
is `completed` and has at least one Content Analysis row; the biconditional
of the claim does not hold across `addSourceToCollection`, which marks a
Source `completed` even when analysis was skipped. -/
theorem pipeline_success_completed_with_analysis (db : DB) (env : PipeEnv)
    (url : String) (ty : SourceType) (file? : Option String) (org : String)
    (cid : Nat)
    (h : (processSourceToLesson db env url ty file? org).2 = .ok cid)
    (h0 : env.procWriteFails = false)
    (h2 : env.completedWriteFails = false) :
    (∀ s ∈ (processSourceToLesson db env url ty file? org).1.sources,
      s.id = db.nextId → s.status = "completed") ∧
    ∃ a ∈ (processSourceToLesson db env url ty file? org).1.sourceAnalyses,
      a.sourceId = db.nextId := by
  by_cases hc : env.createFails
  · simp only [processSourceToLesson, hc, if_true] at h
    simp at h
  · simp only [processSourceToLesson, hc, h0, h2, Bool.false_eq_true, if_false]
      at h ⊢
    split at h
    · rename_i e heq
      simp at h
    · rename_i aData heq
      split at h
      · rename_i hsa
        simp at h
      · rename_i hsa
        simp only [hsa, Bool.false_eq_true, if_false] at h ⊢
        split at h
        · rename_i e heq2
          simp at h
        · rename_i lesson heq2
          split at h
          · rename_i db4 e heq3
            simp at h
          · rename_i db4 courseId heq3
            constructor
            · exact fun s hs hid => updateSourceStatus_status s hs hid
            · have hkept := saveLesson_result_kept heq3
              simp only [updateSourceStatus_sourceAnalyses,
                createNotebookForCourse_sourceAnalyses]
              rw [hkept.2.1]
              simp only [updateSourceStatus_sourceAnalyses]
              exact ⟨_, List.mem_append_right _ (List.mem_singleton_self _), rfl⟩

theorem pipeline_success_completed_with_analysis_witness :
    (⟨0, some "org", .youtube, "url", "url", "completed", none, none⟩ :
        SourceRow).status = "completed" ∧
    ∃ a ∈ (processSourceToLesson emptyDB
        ⟨none, false, false, .ok "analysis", false,
          .ok ⟨⟨"T", "D", "", "", 0⟩, [⟨1, "M", "", "1h", []⟩], none⟩, [],
          false, false, false⟩ "url" .youtube none "org").1.sourceAnalyses,
      a.sourceId = emptyDB.nextId :=
  ⟨(pipeline_success_completed_with_analysis emptyDB
      ⟨none, false, false, .ok "analysis", false,
        .ok ⟨⟨"T", "D", "", "", 0⟩, [⟨1, "M", "", "1h", []⟩], none⟩, [],
        false, false, false⟩ "url" .youtube none "org" 1 rfl rfl rfl).1
      ⟨0, some "org", .youtube, "url", "url", "completed", none, none⟩
      (by decide) (by decide),
    (pipeline_success_completed_with_analysis emptyDB
      ⟨none, false, false, .ok "analysis", false,
        .ok ⟨⟨"T", "D", "", "", 0⟩, [⟨1, "M", "", "1h", []⟩], none⟩, [],
        false, false, false⟩ "url" .youtube none "org" 1 rfl rfl rfl).2⟩

/-! ## Claims about the collection pipeline -/

/-- C5 — counterexample.  `ensureCollectionAnalysis` has no currency check:
here the collection's only analysis (created at time 5) predates the member
source's analysis (created at time 10) — it is stale per invariant 6 — yet
generate-from-collection reuses it unchanged and appends no new synthesis. -/
theorem stale_collection_analysis_reused :
    collectionAnalysisStale
        ⟨[⟨2, some "org", .pdf, "u", "t", "completed", none, none⟩],
          [⟨2, "gemini_document", "a", 10⟩], [], [], [], [], [],
          [⟨1, "org", "C", "", "ready", some 5⟩], [⟨1, 2, 0⟩],
          [⟨1, "cross_source_synthesis", ⟨"syn", "strat"⟩, 1, 5⟩], 3, 11⟩ 1
        ⟨1, "cross_source_synthesis", ⟨"syn", "strat"⟩, 1, 5⟩ = true ∧
    ensureCollectionAnalysis
        ⟨[⟨2, some "org", .pdf, "u", "t", "completed", none, none⟩],
          [⟨2, "gemini_document", "a", 10⟩], [], [], [], [], [],
          [⟨1, "org", "C", "", "ready", some 5⟩], [⟨1, 2, 0⟩],
          [⟨1, "cross_source_synthesis", ⟨"syn", "strat"⟩, 1, 5⟩], 3, 11⟩
        ⟨.error "unused", false, false, false⟩ 1 =
      (⟨[⟨2, some "org", .pdf, "u", "t", "completed", none, none⟩],
          [⟨2, "gemini_document", "a", 10⟩], [], [], [], [], [],
          [⟨1, "org", "C", "", "ready", some 5⟩], [⟨1, 2, 0⟩],
          [⟨1, "cross_source_synthesis", ⟨"syn", "strat"⟩, 1, 5⟩], 3, 11⟩,
        .ok ⟨1, "cross_source_synthesis", ⟨"syn", "strat"⟩, 1, 5⟩) ∧
    (processCollectionToLesson
        ⟨[⟨2, some "org", .pdf, "u", "t", "completed", none, none⟩],
          [⟨2, "gemini_document", "a", 10⟩], [], [], [], [], [],
          [⟨1, "org", "C", "", "ready", some 5⟩], [⟨1, 2, 0⟩],
          [⟨1, "cross_source_synthesis", ⟨"syn", "strat"⟩, 1, 5⟩], 3, 11⟩
        ⟨⟨.error "unused", false, false, false⟩,
          .ok ⟨⟨"T", "D", "c", "i", 60⟩, [], none⟩, []⟩ 1
        "org").1.collectionAnalyses =
      [⟨1, "cross_source_synthesis", ⟨"syn", "strat"⟩, 1, 5⟩] :=
  ⟨rfl, rfl, rfl⟩

/-- C5 (amended): `ensureCollectionAnalysis` reuses the most recent existing
Collection Analysis whenever one exists, with no currency check at all —
even a stale one is reused and the store is left untouched; the collection
synthesis is re-run only when no Collection Analysis exists. -/
theorem ensureCollectionAnalysis_ignores_staleness (db : DB) (env : AnalyzeEnv)
    (cid : Nat) :
    (∀ a, latestCollectionAnalysis db cid = some a →
      ensureCollectionAnalysis db env cid = (db, .ok a)) ∧
    (latestCollectionAnalysis db cid = none →
      ensureCollectionAnalysis db env cid = analyzeCollection db env cid) := by
  constructor
  · intro a ha
    simp [ensureCollectionAnalysis, ha]
  · intro ha
    simp [ensureCollectionAnalysis, ha]

theorem ensureCollectionAnalysis_ignores_staleness_witness :
    ensureCollectionAnalysis
        ⟨[⟨2, some "org", .pdf, "u", "t", "completed", none, none⟩],
          [⟨2, "gemini_document", "a", 10⟩], [], [], [], [], [],
          [⟨1, "org", "C", "", "ready", some 5⟩], [⟨1, 2, 0⟩],
          [⟨1, "cross_source_synthesis", ⟨"syn", "strat"⟩, 1, 5⟩], 3, 11⟩
        ⟨.ok ⟨"s2", "t2"⟩, false, false, false⟩ 1 =
      (⟨[⟨2, some "org", .pdf, "u", "t", "completed", none, none⟩],
          [⟨2, "gemini_document", "a", 10⟩], [], [], [], [], [],
          [⟨1, "org", "C", "", "ready", some 5⟩], [⟨1, 2, 0⟩],
          [⟨1, "cross_source_synthesis", ⟨"syn", "strat"⟩, 1, 5⟩], 3, 11⟩,
        .ok ⟨1, "cross_source_synthesis", ⟨"syn", "strat"⟩, 1, 5⟩) :=
  (ensureCollectionAnalysis_ignores_staleness _ _ 1).1
    ⟨1, "cross_source_synthesis", ⟨"syn", "strat"⟩, 1, 5⟩ rfl

/-- C6 — counterexample.  `ensureSourceAnalyses` does not select a source's
most recent Content Analysis: the lookup is a bare `.single()`, which
errors when more than one row exists, so a member source with TWO analyses
is skipped entirely instead of contributing its most recent analysis. -/
theorem source_with_two_analyses_skipped :
    ((⟨[⟨2, some "o", .pdf, "u", "t", "completed", none, none⟩],
        [⟨2, "t", "a1", 1⟩, ⟨2, "t", "a2", 2⟩], [], [], [], [], [], [], [], [],
        0, 0⟩ : DB).sourceAnalyses.filter (fun a => a.sourceId = 2)).length = 2 ∧
    ensureSourceAnalyses
        ⟨[⟨2, some "o", .pdf, "u", "t", "completed", none, none⟩],
          [⟨2, "t", "a1", 1⟩, ⟨2, "t", "a2", 2⟩], [], [], [], [], [], [], [], [],
          0, 0⟩
        [⟨2, some "o", .pdf, "u", "t", "completed", none, none⟩] = [] :=
  ⟨rfl, rfl⟩

theorem ensureSourceAnalyses_eq_filterMap (db : DB) :
    ∀ sources : List SourceRow,
      ensureSourceAnalyses db sources =
        sources.filterMap fun s =>
          (singleSourceAnalysis db s.id).map fun a =>
            (⟨s.id, a.analysisData⟩ : SourceAnalysisResult) := by
  intro sources
  induction sources with
  | nil => rfl
  | cons s rest ih =>
    rw [ensureSourceAnalyses, List.filterMap_cons]
    cases h : singleSourceAnalysis db s.id with
    | none => simpa [h] using ih
    | some a => simpa [h] using ih

/-- C6 (amended): synthesis proceeds over exactly those member sources
whose single-row analysis lookup yields a row — a source with no Content
Analysis, or with more than one (the `.single()` read then fails), is
skipped with a warning rather than failing the run, and the saved
Collection Analysis counts only the analyses actually used. -/
theorem analyzeCollection_skips_unavailable_analyses (db : DB)
    (env : AnalyzeEnv) (cid : Nat) (coll : CollectionRow)
    (synth : CrossSourceSynthesis)
    (hcoll : db.collections.find? (fun c => c.id = cid) = some coll)
    (hsynth : env.synthesisResult = .ok synth)
    (hins : env.insertFails = false) :
    (analyzeCollection db env cid).2 =
      .ok ⟨cid, "cross_source_synthesis", synth,
        (ensureSourceAnalyses db (collectionMemberSources db cid)).length,
        db.clock⟩ ∧
    ensureSourceAnalyses db (collectionMemberSources db cid) =
      (collectionMemberSources db cid).filterMap (fun s =>
        (singleSourceAnalysis db s.id).map fun a =>
          (⟨s.id, a.analysisData⟩ : SourceAnalysisResult)) := by
  constructor
  · simp [analyzeCollection, hcoll, hsynth, hins]
  · exact ensureSourceAnalyses_eq_filterMap db _

theorem analyzeCollection_skips_unavailable_analyses_witness :
    (analyzeCollection
        ⟨[⟨2, some "o", .pdf, "u", "t", "completed", none, none⟩,
          ⟨3, some "o", .pdf, "v", "t3", "completed", none, none⟩],
          [⟨2, "gemini_document", "a", 10⟩], [], [], [], [], [],
          [⟨1, "o", "C", "", "building", none⟩], [⟨1, 2, 0⟩, ⟨1, 3, 1⟩], [],
          4, 11⟩
        ⟨.ok ⟨"syn", "strat"⟩, false, false, false⟩ 1).2 =
      .ok ⟨1, "cross_source_synthesis", ⟨"syn", "strat"⟩,
        (ensureSourceAnalyses
          ⟨[⟨2, some "o", .pdf, "u", "t", "completed", none, none⟩,
            ⟨3, some "o", .pdf, "v", "t3", "completed", none, none⟩],
            [⟨2, "gemini_document", "a", 10⟩], [], [], [], [], [],
            [⟨1, "o", "C", "", "building", none⟩], [⟨1, 2, 0⟩, ⟨1, 3, 1⟩], [],
            4, 11⟩
          (collectionMemberSources
            ⟨[⟨2, some "o", .pdf, "u", "t", "completed", none, none⟩,
              ⟨3, some "o", .pdf, "v", "t3", "completed", none, none⟩],
              [⟨2, "gemini_document", "a", 10⟩], [], [], [], [], [],
              [⟨1, "o", "C", "", "building", none⟩], [⟨1, 2, 0⟩, ⟨1, 3, 1⟩], [],
              4, 11⟩ 1)).length, 11⟩ :=
  (analyzeCollection_skips_unavailable_analyses
    ⟨[⟨2, some "o", .pdf, "u", "t", "completed", none, none⟩,
      ⟨3, some "o", .pdf, "v", "t3", "completed", none, none⟩],
      [⟨2, "gemini_document", "a", 10⟩], [], [], [], [], [],
      [⟨1, "o", "C", "", "building", none⟩], [⟨1, 2, 0⟩, ⟨1, 3, 1⟩], [],
      4, 11⟩
    ⟨.ok ⟨"syn", "strat"⟩, false, false, false⟩ 1
    ⟨1, "o", "C", "", "building", none⟩ ⟨"syn", "strat"⟩ rfl rfl rfl).1

theorem addSourceAnalysisPhase_collectionSources (db : DB) (env : AddEnv)
    (sid : Nat) (ty : SourceType) (f : Option String) :
    (addSourceAnalysisPhase db env sid ty f).1.collectionSources =
      db.collectionSources := by
  unfold addSourceAnalysisPhase
  dsimp only
  repeat' split
  all_goals rfl

theorem addSourceAnalysisPhase_collections (db : DB) (env : AddEnv)
    (sid : Nat) (ty : SourceType) (f : Option String) :
    (addSourceAnalysisPhase db env sid ty f).1.collections = db.collections := by
  unfold addSourceAnalysisPhase
  dsimp only
  repeat' split
  all_goals rfl

theorem addSourceAnalysisPhase_result {db : DB} {env : AddEnv} {sid : Nat}
    {ty : SourceType} {f : Option String} {p : DB × Option String}
    (h : addSourceAnalysisPhase db env sid ty f = p) :
    p.1.collectionSources = db.collectionSources ∧
    p.1.collections = db.collections := by
  rw [← h]
  exact ⟨addSourceAnalysisPhase_collectionSources db env sid ty f,
    addSourceAnalysisPhase_collections db env sid ty f⟩

theorem getMaxOrderIndex_congr {d1 d2 : DB} (cid : Nat)
    (h : d1.collectionSources = d2.collectionSources) :
    getMaxOrderIndex d1 cid = getMaxOrderIndex d2 cid := by
  unfold getMaxOrderIndex
  rw [h]

/-- C7: a successful `addSourceToCollection` links the new Source to the
collection with order index `getMaxOrderIndex + 1` computed from the
pre-existing rows (so `-1 + 1 = 0` for an empty collection and no
compaction after removals), and writes the Collection's status to
`building` whatever it was before. -/
theorem addSource_links_at_next_order_index (db : DB) (env : AddEnv)
    (cid : Nat) (url : String) (ty : SourceType) (file? : Option String)
    (sid : Nat)
    (h : (addSourceToCollection db env cid url ty file?).2 = .ok sid)
    (hb : env.buildingWriteFails = false) :
    sid = db.nextId ∧
    (⟨cid, db.nextId, getMaxOrderIndex db cid + 1⟩ : CollectionSourceRow) ∈
      (addSourceToCollection db env cid url ty file?).1.collectionSources ∧
    ∀ c ∈ (addSourceToCollection db env cid url ty file?).1.collections,
      c.id = cid → c.status = "building" := by
  by_cases hcf : env.createFails
  · simp [addSourceToCollection, hcf] at h
  · simp only [addSourceToCollection, hcf, hb, Bool.false_eq_true, if_false]
      at h ⊢
    split at h
    · simp at h
    · rename_i db2 heq
      by_cases hl : env.linkInsertFails
      · simp [hl] at h
      · simp only [hl, Bool.false_eq_true, if_false] at h ⊢
        obtain ⟨hcs, _⟩ := addSourceAnalysisPhase_result heq
        simp only [Except.ok.injEq] at h
        have hmax : getMaxOrderIndex db2 cid = getMaxOrderIndex db cid :=
          (getMaxOrderIndex_congr cid hcs).trans rfl
        refine ⟨h.symm, ?_, ?_⟩
        · simp only [updateCollectionStatus_collectionSources,
            updateSourceStatus_collectionSources, hmax]
          exact List.mem_append_right _ (List.mem_singleton_self _)
        · exact fun c hc hcid => (updateCollectionStatus_status c hc hcid).1

theorem addSource_links_at_next_order_index_witness :
    (0 : Nat) =
        ({ emptyDB with collections := [⟨1, "org", "C", "", "ready", none⟩] } : DB).nextId ∧
    (⟨1, ({ emptyDB with collections := [⟨1, "org", "C", "", "ready", none⟩] } : DB).nextId,
        getMaxOrderIndex
          { emptyDB with collections := [⟨1, "org", "C", "", "ready", none⟩] } 1 + 1⟩ :
        CollectionSourceRow) ∈
      (addSourceToCollection
        { emptyDB with collections := [⟨1, "org", "C", "", "ready", none⟩] }
        ⟨none, false, .ok [], .ok "a", false, false, .ok "d", false, false, false⟩
        1 "u" .pdf (some "f.pdf")).1.collectionSources ∧
    (⟨1, "org", "C", "", "building", none⟩ : CollectionRow).status = "building" :=
  ⟨(addSource_links_at_next_order_index
      { emptyDB with collections := [⟨1, "org", "C", "", "ready", none⟩] }
      ⟨none, false, .ok [], .ok "a", false, false, .ok "d", false, false, false⟩
      1 "u" .pdf (some "f.pdf") 0 rfl rfl).1,
    (addSource_links_at_next_order_index
      { emptyDB with collections := [⟨1, "org", "C", "", "ready", none⟩] }
      ⟨none, false, .ok [], .ok "a", false, false, .ok "d", false, false, false⟩
      1 "u" .pdf (some "f.pdf") 0 rfl rfl).2.1,
    (addSource_links_at_next_order_index
      { emptyDB with collections := [⟨1, "org", "C", "", "ready", none⟩] }
      ⟨none, false, .ok [], .ok "a", false, false, .ok "d", false, false, false⟩
      1 "u" .pdf (some "f.pdf") 0 rfl rfl).2.2
      ⟨1, "org", "C", "", "building", none⟩ (by decide) (by decide)⟩

/-- C8: `analyzeCollection` appends exactly one Collection Analysis row and
sets the Collection `ready` with the completion time stamped exactly when
the run succeeds; on any failure it appends nothing, sets the Collection
`failed`, and propagates the error. -/
theorem analyzeCollection_ready_iff_success (db : DB) (env : AnalyzeEnv)
    (cid : Nat) (hr : env.readyWriteFails = false)
    (hf : env.failedWriteFails = false) :
    (∀ row, (analyzeCollection db env cid).2 = .ok row →
      (analyzeCollection db env cid).1.collectionAnalyses =
        db.collectionAnalyses ++ [row] ∧
      ∀ c ∈ (analyzeCollection db env cid).1.collections, c.id = cid →
        c.status = "ready" ∧ c.analysisCompletedAt = some (db.clock + 1)) ∧
    ((∃ e, (analyzeCollection db env cid).2 = .error e) →
      (analyzeCollection db env cid).1.collectionAnalyses =
        db.collectionAnalyses ∧
      ∀ c ∈ (analyzeCollection db env cid).1.collections, c.id = cid →
        c.status = "failed") := by
  simp only [analyzeCollection, hr, hf]
  split
  · constructor
    · intro row hrow
      simp at hrow
    · intro _
      exact ⟨by simp, fun c hc hcid => (updateCollectionStatus_status c hc hcid).1⟩
  · split
    · constructor
      · intro row hrow
        simp at hrow
      · intro _
        exact ⟨by simp, fun c hc hcid => (updateCollectionStatus_status c hc hcid).1⟩
    · by_cases hins : env.insertFails
      · simp only [hins, if_true]
        constructor
        · intro row hrow
          simp at hrow
        · intro _
          exact ⟨by simp,
            fun c hc hcid => (updateCollectionStatus_status c hc hcid).1⟩
      · simp only [hins, Bool.false_eq_true, if_false]
        constructor
        · intro row hrow
          simp only [Except.ok.injEq] at hrow
          subst hrow
          refine ⟨by simp, ?_⟩
          intro c hc hcid
          have hst := updateCollectionStatus_status c hc hcid
          exact ⟨hst.1, hst.2 _ rfl⟩
        · rintro ⟨e, he⟩
          simp at he

theorem analyzeCollection_ready_iff_success_witness :
    (analyzeCollection
        ⟨[⟨2, some "org", .pdf, "u", "t", "completed", none, none⟩],
          [⟨2, "gemini_document", "a", 10⟩], [], [], [], [], [],
          [⟨1, "org", "C", "", "building", none⟩], [⟨1, 2, 0⟩], [], 3, 11⟩
        ⟨.ok ⟨"syn", "strat"⟩, false, false, false⟩ 1).1.collectionAnalyses =
      (⟨[⟨2, some "org", .pdf, "u", "t", "completed", none, none⟩],
          [⟨2, "gemini_document", "a", 10⟩], [], [], [], [], [],
          [⟨1, "org", "C", "", "building", none⟩], [⟨1, 2, 0⟩], [], 3, 11⟩ :
        DB).collectionAnalyses ++
        [⟨1, "cross_source_synthesis", ⟨"syn", "strat"⟩, 1, 11⟩] ∧
    (⟨1, "org", "C", "", "ready", some 12⟩ : CollectionRow).status = "ready" ∧
    (⟨1, "org", "C", "", "ready", some 12⟩ :
        CollectionRow).analysisCompletedAt = some (11 + 1) :=
  ⟨((analyzeCollection_ready_iff_success
      ⟨[⟨2, some "org", .pdf, "u", "t", "completed", none, none⟩],
        [⟨2, "gemini_document", "a", 10⟩], [], [], [], [], [],
        [⟨1, "org", "C", "", "building", none⟩], [⟨1, 2, 0⟩], [], 3, 11⟩
      ⟨.ok ⟨"syn", "strat"⟩, false, false, false⟩ 1 rfl rfl).1
      ⟨1, "cross_source_synthesis", ⟨"syn", "strat"⟩, 1, 11⟩ rfl).1,
    ((analyzeCollection_ready_iff_success
      ⟨[⟨2, some "org", .pdf, "u", "t", "completed", none, none⟩],
        [⟨2, "gemini_document", "a", 10⟩], [], [], [], [], [],
        [⟨1, "org", "C", "", "building", none⟩], [⟨1, 2, 0⟩], [], 3, 11⟩
      ⟨.ok ⟨"syn", "strat"⟩, false, false, false⟩ 1 rfl rfl).1
      ⟨1, "cross_source_synthesis", ⟨"syn", "strat"⟩, 1, 11⟩ rfl).2
      ⟨1, "org", "C", "", "ready", some 12⟩ (by decide) (by decide)⟩

end LPE
